import Mathlib

/-!
# Dashboard save service (pkg/services/dashboards/dashboard_service.go)

A shallow embedding of `DashboardService`: `buildSaveDashboardCommand`,
`updateAlerting`, `SaveDashboard`, `SaveProvisionedDashboard` and
`SaveFolderForProvisionedDashboards`.

Conventions of the embedding.

* Go `int64` values (ids, organisation ids) are `Int`; the service only compares
  them with `0`, it performs no arithmetic on them.
* Go strings are `String` (well-formed UTF-8 text); `len` is the UTF-8 byte size.
* Go pointers that the service dereferences unconditionally (`dto`,
  `dto.Dashboard`, `dto.Dashboard.Data`, `dto.User`) are taken to be non-nil.
* A Go pair `(value, error)` is a pair of options, so that "both nil" and "both
  set" remain expressible.
* Everything reached through `bus.Dispatch` or `guardian.NewDashboardGuardian`
  is a collaborator: a field of `Env`, a function of its arguments and of the
  world state `W` that returns its results and the next world state.  A handler
  that receives the dashboard pointer returns the dashboard as it left it.
* Every collaborator invocation is recorded, in order, in a list of `Call`s.
-/

namespace Dashboards

/-! ## Errors -/

/-- The error values of package `models` that the service or its tests name,
and `other` for any further error a collaborator may return. -/
inductive Err where
  | ErrDashboardTitleEmpty
  | ErrDashboardFolderCannotHaveParent
  | ErrDashboardFolderNameExists
  | ErrDashboardInvalidUid
  | ErrDashboardUidToLong
  | ErrDashboardContainsInvalidAlertData
  | ErrDashboardUpdateAccessDenied
  | ErrDashboardFailedToUpdateAlertData
  | ErrDashboardNotFound
  | ErrFolderNotFound
  | ErrDashboardVersionMismatch
  | ErrDashboardWithSameUIDExists
  | ErrDashboardWithSameNameInFolderExists
  | ErrDashboardWithSameNameAsFolder
  | ErrDashboardFolderWithSameNameAsDashboard
  | ErrDashboardTypeMismatch
  | other (msg : String)
  deriving DecidableEq, Repr

/-! ## Strings (Go package `strings`) -/

/-- The runes `unicode.IsSpace` accepts: the Unicode White_Space property. -/
def isSpace (c : Char) : Bool :=
  (9 ≤ c.toNat && c.toNat ≤ 13) || c.toNat == 32 || c.toNat == 0x85 || c.toNat == 0xA0
    || c.toNat == 0x1680 || (0x2000 ≤ c.toNat && c.toNat ≤ 0x200A)
    || c.toNat == 0x2028 || c.toNat == 0x2029 || c.toNat == 0x202F
    || c.toNat == 0x205F || c.toNat == 0x3000

/-- Go `strings.TrimSpace`: the string without its leading and trailing white space. -/
def TrimSpace (s : String) : String :=
  ⟨((s.data.dropWhile isSpace).reverse.dropWhile isSpace).reverse⟩

/-- Lower-case mapping of one rune.  The letters `A`..`Z` are mapped to
`a`..`z`; every other rune is left as it is (the case tables of package
`unicode` beyond ASCII are not reproduced). -/
def toLowerRune (c : Char) : Char :=
  if 65 ≤ c.toNat ∧ c.toNat ≤ 90 then Char.ofNat (c.toNat + 32) else c

/-- Go `strings.ToLower`: every rune mapped to lower case. -/
def ToLower (s : String) : String :=
  ⟨s.data.map toLowerRune⟩

/-- Go `len(s)`: the number of bytes of the string. -/
def len (s : String) : Nat :=
  s.utf8ByteSize

/-! ## Data model -/

/-- A scalar of the dashboard body. -/
inductive JsonValue where
  | null
  | bool (b : Bool)
  | num (n : Int)
  | str (s : String)
  deriving DecidableEq, Repr

/-- Modelled from the spec: `simplejson.Json` is declared outside src/.  The
body is "an arbitrary key/value document"; it is kept as the list of its
key/value pairs, one pair per key. -/
structure Json where
  fields : List (String × JsonValue)
  deriving DecidableEq, Repr

/-- Modelled from the spec: `simplejson.Json.Set` is declared outside src/.
`Set key val` binds `key` to `val`, replacing an earlier binding of `key`. -/
def Json.Set (j : Json) (key : String) (val : JsonValue) : Json :=
  ⟨(key, val) :: j.fields.filter (fun p => p.1 ≠ key)⟩

/-- Modelled from the spec: `simplejson.Json.Get` is declared outside src/.
The value bound to `key`, if any. -/
def Json.Get (j : Json) (key : String) : Option JsonValue :=
  (j.fields.find? (fun p => p.1 = key)).map (fun p => p.2)

/-- The fields of `models.Dashboard` that the service and its tests use. -/
structure Dashboard where
  Id : Int
  Uid : String
  Slug : String
  OrgId : Int
  Version : Int
  FolderId : Int
  IsFolder : Bool
  Title : String
  Data : Json
  deriving DecidableEq, Repr

/-- Modelled from the spec: `models.Dashboard.SetUid` is declared outside src/.
The uid is an identity of the entity and is part of its persisted form, so the
setter stores it in the `Uid` field and under the key "uid" of the body. -/
def Dashboard.SetUid (dash : Dashboard) (uid : String) : Dashboard :=
  { dash with Uid := uid, Data := dash.Data.Set "uid" (JsonValue.str uid) }

/-- The organisation roles of package `models`. -/
inductive RoleType where
  | ROLE_VIEWER
  | ROLE_EDITOR
  | ROLE_ADMIN
  | unset
  deriving DecidableEq, Repr

/-- The fields of `models.SignedInUser` that the service sets or reads. -/
structure SignedInUser where
  UserId : Int
  OrgRole : RoleType
  deriving DecidableEq, Repr

/-- Go `time.Time`, as the offset from the zero time. -/
structure Time where
  offset : Int
  deriving DecidableEq, Repr

/-- Go `time.Time.IsZero`. -/
def Time.IsZero (t : Time) : Bool :=
  t.offset == 0

/-- Modelled from the spec: `models.RootFolderName` is declared outside src/.
The spec names the implicit root folder "General". -/
def RootFolderName : String :=
  "General"

/-- The `SaveDashboardDTO` struct of the service. -/
structure SaveDashboardDTO where
  OrgId : Int
  UpdatedAt : Time
  User : SignedInUser
  Message : String
  Overwrite : Bool
  Dashboard : Dashboard
  deriving DecidableEq, Repr

/-- The fields of `models.SaveDashboardCommand` that the service fills.  Its
`Result` field, which the commit handler sets, is what the handler returns. -/
structure SaveDashboardCommand where
  Dashboard : Json
  Message : String
  OrgId : Int
  Overwrite : Bool
  UserId : Int
  FolderId : Int
  IsFolder : Bool
  UpdatedAt : Time
  deriving DecidableEq, Repr

/-- The fields of `models.DashboardProvisioning` (the service only passes it on). -/
structure DashboardProvisioning where
  Name : String
  ExternalId : String
  deriving DecidableEq, Repr

/-! ## Collaborators -/

/-- One collaborator invocation, with the arguments it was given. -/
inductive Call where
  | ValidateDashboardAlerts (orgId : Int) (dash : Dashboard)
  | ValidateDashboardBeforeSave (orgId : Int) (dash : Dashboard) (overwrite : Bool)
  | CanSave (dashId : Int) (orgId : Int) (user : SignedInUser)
  | SaveDashboard (cmd : SaveDashboardCommand)
  | SaveProvisionedDashboard (cmd : SaveDashboardCommand) (provisioning : DashboardProvisioning)
  | UpdateDashboardAlerts (orgId : Int) (userId : Int) (dash : Option Dashboard)
  deriving DecidableEq, Repr

/-- The five kinds of collaborator the service invokes. -/
inductive Stage where
  | AlertValidation
  | BeforeSaveValidation
  | Guardian
  | Commit
  | AlertSync
  deriving DecidableEq, Repr

/-- The kind of collaborator an invocation went to. -/
def Call.stage : Call → Stage
  | Call.ValidateDashboardAlerts _ _ => Stage.AlertValidation
  | Call.ValidateDashboardBeforeSave _ _ _ => Stage.BeforeSaveValidation
  | Call.CanSave _ _ _ => Stage.Guardian
  | Call.SaveDashboard _ => Stage.Commit
  | Call.SaveProvisionedDashboard _ _ => Stage.Commit
  | Call.UpdateDashboardAlerts _ _ _ => Stage.AlertSync

/-- The `guardian.IDashboardGuardian` interface, restricted to `CanSave`. -/
structure IDashboardGuardian (W : Type) where
  CanSave : W → (Bool × Option Err) × W

/-- What the service reaches outside itself: `util.IsValidShortUid`, the
handlers registered on the bus for the five commands it dispatches, and the
guardian factory `guardian.NewDashboardGuardian`. -/
structure Env (W : Type) where
  IsValidShortUid : String → Bool
  ValidateDashboardAlerts : Int → Dashboard → W → Option Err × Dashboard × W
  ValidateDashboardBeforeSave : Int → Dashboard → Bool → W → Option Err × Dashboard × W
  NewDashboardGuardian : Int → Int → SignedInUser → IDashboardGuardian W
  SaveDashboard : SaveDashboardCommand → W → Option Err × Option Dashboard × W
  SaveProvisionedDashboard :
    SaveDashboardCommand → DashboardProvisioning → W → Option Err × Option Dashboard × W
  UpdateDashboardAlerts : Int → Int → Option Dashboard → W → Option Err × W

/-- The outcome of a service function: its two Go results, the collaborator
invocations it made, in order, and the world state it left. -/
structure Run (W : Type) (α : Type) where
  val : Option α
  err : Option Err
  calls : List Call
  world : W

/-! ## The service -/

/-- The method `DashboardService.buildSaveDashboardCommand`.  Besides the
command it returns the commit handler is given, through `Run.calls`, the
invocations made on the way. -/
def buildSaveDashboardCommand {W : Type} (E : Env W) (dto : SaveDashboardDTO) (w : W) :
    Run W SaveDashboardCommand :=
  let dash := dto.Dashboard
  let dash := { dash with Title := TrimSpace dash.Title }
  let dash := { dash with Data := dash.Data.Set "title" (JsonValue.str dash.Title) }
  let dash := dash.SetUid (TrimSpace dash.Uid)
  if dash.Title = "" then
    ⟨none, some Err.ErrDashboardTitleEmpty, [], w⟩
  else if dash.IsFolder = true ∧ dash.FolderId > 0 then
    ⟨none, some Err.ErrDashboardFolderCannotHaveParent, [], w⟩
  else if dash.IsFolder = true ∧ ToLower dash.Title = ToLower RootFolderName then
    ⟨none, some Err.ErrDashboardFolderNameExists, [], w⟩
  else if E.IsValidShortUid dash.Uid = false then
    ⟨none, some Err.ErrDashboardInvalidUid, [], w⟩
  else if len dash.Uid > 40 then
    ⟨none, some Err.ErrDashboardUidToLong, [], w⟩
  else
    let c1 := Call.ValidateDashboardAlerts dto.OrgId dash
    match E.ValidateDashboardAlerts dto.OrgId dash w with
    | (some _, _, w1) => ⟨none, some Err.ErrDashboardContainsInvalidAlertData, [c1], w1⟩
    | (none, dash1, w1) =>
      let c2 := Call.ValidateDashboardBeforeSave dto.OrgId dash1 dto.Overwrite
      match E.ValidateDashboardBeforeSave dto.OrgId dash1 dto.Overwrite w1 with
      | (some e, _, w2) => ⟨none, some e, [c1, c2], w2⟩
      | (none, dash2, w2) =>
        let dashId := if dash2.Id = 0 then dash2.FolderId else dash2.Id
        let guard := E.NewDashboardGuardian dashId dto.OrgId dto.User
        let c3 := Call.CanSave dashId dto.OrgId dto.User
        match guard.CanSave w2 with
        | ((_, some e), w3) => ⟨none, some e, [c1, c2, c3], w3⟩
        | ((false, none), w3) => ⟨none, some Err.ErrDashboardUpdateAccessDenied, [c1, c2, c3], w3⟩
        | ((true, none), w3) =>
          let cmd : SaveDashboardCommand :=
            { Dashboard := dash2.Data
              Message := dto.Message
              OrgId := dto.OrgId
              Overwrite := dto.Overwrite
              UserId := dto.User.UserId
              FolderId := dash2.FolderId
              IsFolder := dash2.IsFolder
              UpdatedAt := ⟨0⟩ }
          let cmd := if dto.UpdatedAt.IsZero = false then { cmd with UpdatedAt := dto.UpdatedAt } else cmd
          ⟨some cmd, none, [c1, c2, c3], w3⟩

/-- The method `DashboardService.updateAlerting`; `result` is `cmd.Result`. -/
def updateAlerting {W : Type} (E : Env W) (result : Option Dashboard) (dto : SaveDashboardDTO)
    (w : W) : Run W Unit :=
  let c := Call.UpdateDashboardAlerts dto.OrgId dto.User.UserId result
  match E.UpdateDashboardAlerts dto.OrgId dto.User.UserId result w with
  | (some _, w1) => ⟨none, some Err.ErrDashboardFailedToUpdateAlertData, [c], w1⟩
  | (none, w1) => ⟨none, none, [c], w1⟩

/-- The method `DashboardService.SaveDashboard`.  The second case of the first
match is never taken: `buildSaveDashboardCommand` returns no command only
together with an error. -/
def SaveDashboard {W : Type} (E : Env W) (dto : SaveDashboardDTO) (w : W) : Run W Dashboard :=
  match buildSaveDashboardCommand E dto w with
  | ⟨_, some e, cs, w1⟩ => ⟨none, some e, cs, w1⟩
  | ⟨none, none, cs, w1⟩ => ⟨none, none, cs, w1⟩
  | ⟨some cmd, none, cs, w1⟩ =>
    match E.SaveDashboard cmd w1 with
    | (some e, _, w2) => ⟨none, some e, cs ++ [Call.SaveDashboard cmd], w2⟩
    | (none, result, w2) =>
      match updateAlerting E result dto w2 with
      | ⟨_, some e, cs3, w3⟩ => ⟨none, some e, cs ++ [Call.SaveDashboard cmd] ++ cs3, w3⟩
      | ⟨_, none, cs3, w3⟩ => ⟨result, none, cs ++ [Call.SaveDashboard cmd] ++ cs3, w3⟩

/-- The user both provisioning saves put in place of the caller's. -/
def provisioningUser : SignedInUser :=
  { UserId := 0, OrgRole := RoleType.ROLE_ADMIN }

/-- The method `DashboardService.SaveProvisionedDashboard`. -/
def SaveProvisionedDashboard {W : Type} (E : Env W) (dto : SaveDashboardDTO)
    (provisioning : DashboardProvisioning) (w : W) : Run W Dashboard :=
  let dto := { dto with User := provisioningUser }
  match buildSaveDashboardCommand E dto w with
  | ⟨_, some e, cs, w1⟩ => ⟨none, some e, cs, w1⟩
  | ⟨none, none, cs, w1⟩ => ⟨none, none, cs, w1⟩
  | ⟨some cmd, none, cs, w1⟩ =>
    match E.SaveProvisionedDashboard cmd provisioning w1 with
    | (some e, _, w2) => ⟨none, some e, cs ++ [Call.SaveProvisionedDashboard cmd provisioning], w2⟩
    | (none, result, w2) =>
      match updateAlerting E result dto w2 with
      | ⟨_, some e, cs3, w3⟩ =>
        ⟨none, some e, cs ++ [Call.SaveProvisionedDashboard cmd provisioning] ++ cs3, w3⟩
      | ⟨_, none, cs3, w3⟩ =>
        ⟨result, none, cs ++ [Call.SaveProvisionedDashboard cmd provisioning] ++ cs3, w3⟩

/-- The method `DashboardService.SaveFolderForProvisionedDashboards`. -/
def SaveFolderForProvisionedDashboards {W : Type} (E : Env W) (dto : SaveDashboardDTO) (w : W) :
    Run W Dashboard :=
  let dto := { dto with User := provisioningUser }
  match buildSaveDashboardCommand E dto w with
  | ⟨_, some e, cs, w1⟩ => ⟨none, some e, cs, w1⟩
  | ⟨none, none, cs, w1⟩ => ⟨none, none, cs, w1⟩
  | ⟨some cmd, none, cs, w1⟩ =>
    match E.SaveDashboard cmd w1 with
    | (some e, _, w2) => ⟨none, some e, cs ++ [Call.SaveDashboard cmd], w2⟩
    | (none, result, w2) =>
      match updateAlerting E result dto w2 with
      | ⟨_, some e, cs3, w3⟩ => ⟨none, some e, cs ++ [Call.SaveDashboard cmd] ++ cs3, w3⟩
      | ⟨_, none, cs3, w3⟩ => ⟨result, none, cs ++ [Call.SaveDashboard cmd] ++ cs3, w3⟩

/-! ## Names for the parts of `buildSaveDashboardCommand` -/

/-- The dashboard as lines 56-58 of the service leave it: title trimmed, the
trimmed title stored in the body, uid trimmed. -/
def normalize (dash : Dashboard) : Dashboard :=
  let dash := { dash with Title := TrimSpace dash.Title }
  let dash := { dash with Data := dash.Data.Set "title" (JsonValue.str dash.Title) }
  dash.SetUid (TrimSpace dash.Uid)

/-- The checks of lines 60-76, which consult no collaborator, on the
normalized dashboard: the error of the first check that fails, if any. -/
def localError (IsValidShortUid : String → Bool) (dash : Dashboard) : Option Err :=
  if dash.Title = "" then some Err.ErrDashboardTitleEmpty
  else if dash.IsFolder = true ∧ dash.FolderId > 0 then some Err.ErrDashboardFolderCannotHaveParent
  else if dash.IsFolder = true ∧ ToLower dash.Title = ToLower RootFolderName then
    some Err.ErrDashboardFolderNameExists
  else if IsValidShortUid dash.Uid = false then some Err.ErrDashboardInvalidUid
  else if len dash.Uid > 40 then some Err.ErrDashboardUidToLong
  else none

/-- The entity id of lines 97-101, which the guardian is constructed with. -/
def guardianDashId (dash : Dashboard) : Int :=
  if dash.Id = 0 then dash.FolderId else dash.Id

/-- The command of lines 111-123, built from the request and from the
dashboard as the two validations left it. -/
def newSaveDashboardCommand (dto : SaveDashboardDTO) (dash : Dashboard) : SaveDashboardCommand :=
  let cmd : SaveDashboardCommand :=
    { Dashboard := dash.Data
      Message := dto.Message
      OrgId := dto.OrgId
      Overwrite := dto.Overwrite
      UserId := dto.User.UserId
      FolderId := dash.FolderId
      IsFolder := dash.IsFolder
      UpdatedAt := ⟨0⟩ }
  if dto.UpdatedAt.IsZero = false then { cmd with UpdatedAt := dto.UpdatedAt } else cmd

/-! ## A scripted environment -/

/-- Modelled from the spec: `util.IsValidShortUid` is declared outside src/.
The format check accepts a restricted character set: letters, digits, the
hyphen and the underscore. -/
def IsValidShortUid (uid : String) : Bool :=
  uid.data.all (fun c => c.isAlphanum || c == '-' || c == '_')

/-- What the scripted collaborators answer. -/
structure Script where
  alerts : Option Err
  beforeSave : Option Err
  canSave : Bool × Option Err
  commit : Option Err
  sync : Option Err
  deriving DecidableEq, Repr

/-- The dashboard a scripted commit stores for a command: identity `n + 1` for
the `n`-th commit, version 1. -/
def storedDashboard (cmd : SaveDashboardCommand) (n : Nat) : Dashboard :=
  { Id := n + 1
    Uid := ""
    Slug := ""
    OrgId := cmd.OrgId
    Version := 1
    FolderId := cmd.FolderId
    IsFolder := cmd.IsFolder
    Title := ""
    Data := cmd.Dashboard }

/-- An environment whose collaborators answer as the script says.  The world
is the list of the dashboards committed so far; a successful commit appends
one, every other collaborator leaves the world as it is. -/
def scriptedEnv (s : Script) : Env (List Dashboard) where
  IsValidShortUid := IsValidShortUid
  ValidateDashboardAlerts := fun _ dash w => (s.alerts, dash, w)
  ValidateDashboardBeforeSave := fun _ dash _ w => (s.beforeSave, dash, w)
  NewDashboardGuardian := fun _ _ _ => ⟨fun w => (s.canSave, w)⟩
  SaveDashboard := fun cmd w =>
    match s.commit with
    | some e => (some e, none, w)
    | none => (none, some (storedDashboard cmd w.length), w ++ [storedDashboard cmd w.length])
  SaveProvisionedDashboard := fun cmd _ w =>
    match s.commit with
    | some e => (some e, none, w)
    | none => (none, some (storedDashboard cmd w.length), w ++ [storedDashboard cmd w.length])
  UpdateDashboardAlerts := fun _ _ _ w => (s.sync, w)

/-- The script in which every collaborator succeeds. -/
def allOk : Script :=
  { alerts := none, beforeSave := none, canSave := (true, none), commit := none, sync := none }

/-- A request by user 7 of organisation 1 with the given dashboard id, title,
uid, folder flag and folder id. -/
def request (id : Int) (title uid : String) (isFolder : Bool) (folderId : Int) :
    SaveDashboardDTO :=
  { OrgId := 1
    UpdatedAt := ⟨0⟩
    User := { UserId := 7, OrgRole := RoleType.ROLE_EDITOR }
    Message := ""
    Overwrite := false
    Dashboard :=
      { Id := id, Uid := uid, Slug := "", OrgId := 1, Version := 0, FolderId := folderId,
        IsFolder := isFolder, Title := title, Data := ⟨[]⟩ } }

/-- A provisioning record for the requests above. -/
def provisioningRecord : DashboardProvisioning :=
  { Name := "default", ExternalId := "dashboards/prod.json" }

/-! ## The answers of the collaborators along a save -/

/-- The answer of the alert validation to the normalized dashboard. -/
def alertsAnswer {W : Type} (E : Env W) (dto : SaveDashboardDTO) (w : W) :
    Option Err × Dashboard × W :=
  E.ValidateDashboardAlerts dto.OrgId (normalize dto.Dashboard) w

/-- The answer of the before-save validation to the dashboard and the world
the alert validation left. -/
def beforeSaveAnswer {W : Type} (E : Env W) (dto : SaveDashboardDTO) (w : W) :
    Option Err × Dashboard × W :=
  E.ValidateDashboardBeforeSave dto.OrgId (alertsAnswer E dto w).2.1 dto.Overwrite
    (alertsAnswer E dto w).2.2

/-- The answer of the guardian, constructed for the dashboard the before-save
validation left. -/
def guardianAnswer {W : Type} (E : Env W) (dto : SaveDashboardDTO) (w : W) :
    (Bool × Option Err) × W :=
  (E.NewDashboardGuardian (guardianDashId (beforeSaveAnswer E dto w).2.1) dto.OrgId
    dto.User).CanSave (beforeSaveAnswer E dto w).2.2

/-- The answer of the commit to the command built from the request. -/
def commitAnswer {W : Type} (E : Env W) (dto : SaveDashboardDTO) (w : W) :
    Option Err × Option Dashboard × W :=
  E.SaveDashboard (newSaveDashboardCommand dto (beforeSaveAnswer E dto w).2.1)
    (guardianAnswer E dto w).2

/-- The answer of the alert synchronization to the committed dashboard. -/
def syncAnswer {W : Type} (E : Env W) (dto : SaveDashboardDTO) (w : W) : Option Err × W :=
  E.UpdateDashboardAlerts dto.OrgId dto.User.UserId (commitAnswer E dto w).2.1
    (commitAnswer E dto w).2.2

/-- The calls of a save that runs through all five collaborators. -/
def fullCalls {W : Type} (E : Env W) (dto : SaveDashboardDTO) (w : W) : List Call :=
  [Call.ValidateDashboardAlerts dto.OrgId (normalize dto.Dashboard),
    Call.ValidateDashboardBeforeSave dto.OrgId (alertsAnswer E dto w).2.1 dto.Overwrite,
    Call.CanSave (guardianDashId (beforeSaveAnswer E dto w).2.1) dto.OrgId dto.User,
    Call.SaveDashboard (newSaveDashboardCommand dto (beforeSaveAnswer E dto w).2.1),
    Call.UpdateDashboardAlerts dto.OrgId dto.User.UserId (commitAnswer E dto w).2.1]

/-- The stages in the order the service runs them: the local checks, the alert
validation, the before-save validation, the permission gate, the commit and
the alert synchronization.  The save ends at the first stage that fails, with
the error of that stage (the alert validation and the alert synchronization
have their error replaced), after the calls made so far. -/
def firstFailure {W : Type} (E : Env W) (dto : SaveDashboardDTO) (w : W) : Run W Dashboard :=
  match localError E.IsValidShortUid (normalize dto.Dashboard) with
  | some e => ⟨none, some e, [], w⟩
  | none =>
    match (alertsAnswer E dto w).1 with
    | some _ =>
      ⟨none, some Err.ErrDashboardContainsInvalidAlertData, (fullCalls E dto w).take 1,
        (alertsAnswer E dto w).2.2⟩
    | none =>
      match (beforeSaveAnswer E dto w).1 with
      | some e => ⟨none, some e, (fullCalls E dto w).take 2, (beforeSaveAnswer E dto w).2.2⟩
      | none =>
        match (guardianAnswer E dto w).1 with
        | (_, some e) => ⟨none, some e, (fullCalls E dto w).take 3, (guardianAnswer E dto w).2⟩
        | (false, none) =>
          ⟨none, some Err.ErrDashboardUpdateAccessDenied, (fullCalls E dto w).take 3,
            (guardianAnswer E dto w).2⟩
        | (true, none) =>
          match (commitAnswer E dto w).1 with
          | some e => ⟨none, some e, (fullCalls E dto w).take 4, (commitAnswer E dto w).2.2⟩
          | none =>
            match (syncAnswer E dto w).1 with
            | some _ =>
              ⟨none, some Err.ErrDashboardFailedToUpdateAlertData, fullCalls E dto w,
                (syncAnswer E dto w).2⟩
            | none =>
              ⟨(commitAnswer E dto w).2.1, none, fullCalls E dto w, (syncAnswer E dto w).2⟩

/-- The environment of `SaveProvisionedDashboard`: the commit goes to the
handler of `SaveProvisionedDashboardCommand`, with the provisioning record. -/
def Env.forProvisioning {W : Type} (E : Env W) (provisioning : DashboardProvisioning) : Env W :=
  { E with SaveDashboard := fun cmd w => E.SaveProvisionedDashboard cmd provisioning w }

/-- The call of the plain commit, read as the call of the provisioning commit. -/
def Call.forProvisioning (provisioning : DashboardProvisioning) : Call → Call
  | Call.SaveDashboard cmd => Call.SaveProvisionedDashboard cmd provisioning
  | c => c

/-- Every stage of a save succeeds: the local checks pass, the two validations
answer without an error, the guardian answers `(true, nil)`, and the commit
and the alert synchronization answer without an error. -/
def everyStageSucceeds {W : Type} (E : Env W) (dto : SaveDashboardDTO) (w : W) : Prop :=
  localError E.IsValidShortUid (normalize dto.Dashboard) = none
    ∧ (alertsAnswer E dto w).1 = none
    ∧ (beforeSaveAnswer E dto w).1 = none
    ∧ (guardianAnswer E dto w).1 = (true, none)
    ∧ (commitAnswer E dto w).1 = none
    ∧ (syncAnswer E dto w).1 = none

instance {W : Type} (E : Env W) (dto : SaveDashboardDTO) (w : W) :
    Decidable (everyStageSucceeds E dto w) := by
  unfold everyStageSucceeds
  infer_instance

/-- The five stages that invoke a collaborator, in the order of a save. -/
def stageOrder : List Stage :=
  [Stage.AlertValidation, Stage.BeforeSaveValidation, Stage.Guardian, Stage.Commit,
    Stage.AlertSync]

/-- The first-match decision on the trimmed title `t` and the trimmed uid `u`,
read off the statement of the local checks: title empty, then folder with a
positive folder id, then folder named like the root folder, then uid format,
then uid length. -/
def firstMatchDecision (IsValidShortUid : String → Bool) (t u : String) (isFolder : Bool)
    (folderId : Int) : Option Err :=
  if t = "" then some Err.ErrDashboardTitleEmpty
  else if isFolder = true ∧ folderId > 0 then some Err.ErrDashboardFolderCannotHaveParent
  else if isFolder = true ∧ ToLower t = ToLower RootFolderName then
    some Err.ErrDashboardFolderNameExists
  else if IsValidShortUid u = false then some Err.ErrDashboardInvalidUid
  else if len u > 40 then some Err.ErrDashboardUidToLong
  else none

/-- A sequence of `Set`s on a body, applied from left to right. -/
def Json.SetAll (j : Json) (sets : List (String × JsonValue)) : Json :=
  sets.foldl (fun body p => body.Set p.1 p.2) j

/-- An environment in which every collaborator succeeds and the before-save
validation renames the dashboard it is given: it writes "Renamed" into the
title field and under the key "title" of the body. -/
def renamingEnv : Env (List Dashboard) :=
  { scriptedEnv allOk with
    ValidateDashboardBeforeSave := fun _ dash _ w =>
      (none, { dash with Title := "Renamed",
                         Data := dash.Data.Set "title" (JsonValue.str "Renamed") }, w) }

/-- The titles in the bodies of the commands handed to the commit. -/
def committedTitles (calls : List Call) : List (Option JsonValue) :=
  calls.filterMap (fun c =>
    match c with
    | Call.SaveDashboard cmd => some (cmd.Dashboard.Get "title")
    | _ => none)

/-! ## The storage, modelled from the spec

The handlers behind `ValidateDashboardBeforeSaveCommand` and
`SaveDashboardCommand` are not part of the service.  They are modelled from the
spec: the store is the list of the persisted entities, the before-save
validation runs the identity resolver and the folder lookup of section 4.1,
the type validator of section 4.2, the uid rule and the title rule of the
uniqueness validator of section 4.3 and the concurrency validator of section
4.4, in this order, and the commit is the save executor of section 4.6, which
validates again before it writes.  A request "supplies no
expected version" when its `Version` is 0, the value a Go dashboard has when
the body names no version.  The spec compares titles case-insensitively
without fixing the case folding, which is the collation of the database: it is
the parameter `lower` of the model. -/

/-- Modelled from the spec: `models.Dashboard.SetId` is declared outside src/.
The id is an identity of the entity; the setter stores it in the `Id` field
and under the key "id" of the body. -/
def Dashboard.SetId (dash : Dashboard) (id : Int) : Dashboard :=
  { dash with Id := id, Data := dash.Data.Set "id" (JsonValue.num id) }

/-- Modelled from the spec: the integer a body holds under `key`, 0 when it
holds none (`simplejson.Json.MustInt64`, declared outside src/). -/
def Json.GetInt (j : Json) (key : String) : Int :=
  match j.Get key with
  | some (JsonValue.num n) => n
  | _ => 0

/-- Modelled from the spec: the string a body holds under `key`, empty when it
holds none (`simplejson.Json.MustString`, declared outside src/). -/
def Json.GetString (j : Json) (key : String) : String :=
  match j.Get key with
  | some (JsonValue.str s) => s
  | _ => ""

/-- Modelled from the spec: `models.SaveDashboardCommand.GetDashboardModel` is
declared outside src/.  The dashboard a command stands for: id, uid, title and
version are read from the body, organization, folder and folder flag from the
command. -/
def SaveDashboardCommand.GetDashboardModel (cmd : SaveDashboardCommand) :
    Dashboards.Dashboard :=
  { Id := cmd.Dashboard.GetInt "id"
    Uid := cmd.Dashboard.GetString "uid"
    Slug := ""
    OrgId := cmd.OrgId
    Version := cmd.Dashboard.GetInt "version"
    FolderId := cmd.FolderId
    IsFolder := cmd.IsFolder
    Title := cmd.Dashboard.GetString "title"
    Data := cmd.Dashboard }

/-- Modelled from the spec: the storage operation `findById(org, id)` of
section 6 is declared outside src/. -/
def findById (store : List Dashboard) (org id : Int) : Option Dashboard :=
  store.find? (fun e => decide (e.OrgId = org ∧ e.Id = id))

/-- Modelled from the spec: the storage operation `findByUid(org, uid)` of
section 6 is declared outside src/. -/
def findByUid (store : List Dashboard) (org : Int) (uid : String) : Option Dashboard :=
  store.find? (fun e => decide (e.OrgId = org ∧ e.Uid = uid))

/-- Modelled from the spec: the storage operation
`findByTitleInScope(org, folderId, isFolder, excludeId?)` of section 6 is
declared outside src/.  Titles are compared case-insensitively: two titles
match when the case folding `lower` maps them to the same string. -/
def findByTitleInScope (lower : String → String) (store : List Dashboard) (org folderId : Int)
    (isFolder : Bool) (title : String) (excludeId : Option Int) : Option Dashboard :=
  store.find? (fun e => decide (e.OrgId = org ∧ e.FolderId = folderId ∧ e.IsFolder = isFolder
    ∧ lower e.Title = lower title ∧ some e.Id ≠ excludeId))

/-- The outcome of a validator of the storage: an error, or the target of the
save (none for a creation). -/
inductive Resolution where
  | failed (e : Err)
  | target (t : Option Dashboard)
  deriving DecidableEq, Repr

/-- Modelled from the spec: the identity resolver of section 4.1 is declared
outside src/.  A numeric id is looked up in the organization and must exist;
else a uid is looked up in the organization, its absence meaning a creation
with this uid; with neither, the request is a creation attempt. -/
def identityResolver (store : List Dashboard) (org : Int) (dash : Dashboard) : Resolution :=
  if dash.Id ≠ 0 then
    match findById store org dash.Id with
    | none => Resolution.failed Err.ErrDashboardNotFound
    | some e => Resolution.target (some e)
  else if dash.Uid ≠ "" then Resolution.target (findByUid store org dash.Uid)
  else Resolution.target none

/-- Modelled from the spec: the folder lookup of section 4.1 is declared
outside src/.  `FolderNotFound` when the folder id is not 0 and the
organization has no folder with this id. -/
def folderResolver (store : List Dashboard) (org : Int) (dash : Dashboard) : Option Err :=
  if dash.FolderId ≠ 0
      ∧ store.find? (fun e => decide (e.OrgId = org ∧ e.Id = dash.FolderId ∧ e.IsFolder = true))
        = none then
    some Err.ErrFolderNotFound
  else none

/-- Modelled from the spec: the type rule of section 4.2 is declared outside
src/.  `TypeMismatch` when the target exists and its folder flag differs from
the request's. -/
def typeValidator (dash : Dashboard) (target : Option Dashboard) : Option Err :=
  match target with
  | some t => if t.IsFolder ≠ dash.IsFolder then some Err.ErrDashboardTypeMismatch else none
  | none => none

/-- Modelled from the spec: the uid rule of the uniqueness validator is
declared outside src/.  Invariant 1 of section 3 makes the uid unique within
an organization; an update that names a uid held by another entity of the
organization would break it and fails with `ErrDashboardWithSameUIDExists`,
the error the integration test expects for an update by id that carries the
uid of another dashboard. -/
def uidValidator (store : List Dashboard) (org : Int) (dash : Dashboard)
    (target : Option Dashboard) : Option Err :=
  match target with
  | none => none
  | some t =>
    if dash.Uid = "" then none
    else
      match findByUid store org dash.Uid with
      | some e => if e.Id ≠ t.Id then some Err.ErrDashboardWithSameUIDExists else none
      | none => none

/-- Modelled from the spec: the uniqueness validator of section 4.3 is
declared outside src/.  An entity of the same kind with the same title in the
scope, other than the target, fails the request without the overwrite flag and
becomes the target with it; an entity of the other kind with the same title at
the same folder scope fails the request whatever the overwrite flag is. -/
def uniquenessValidator (lower : String → String) (store : List Dashboard) (org : Int)
    (dash : Dashboard) (overwrite : Bool) (target : Option Dashboard) : Resolution :=
  match findByTitleInScope lower store org dash.FolderId dash.IsFolder dash.Title
      (target.map (fun t => t.Id)) with
  | some c =>
    if overwrite = false then Resolution.failed Err.ErrDashboardWithSameNameInFolderExists
    else
      match findByTitleInScope lower store org dash.FolderId (!dash.IsFolder) dash.Title
          none with
      | some _ =>
        Resolution.failed (if dash.IsFolder then Err.ErrDashboardFolderWithSameNameAsDashboard
          else Err.ErrDashboardWithSameNameAsFolder)
      | none => Resolution.target (some c)
  | none =>
    match findByTitleInScope lower store org dash.FolderId (!dash.IsFolder) dash.Title
        none with
    | some _ =>
      Resolution.failed (if dash.IsFolder then Err.ErrDashboardFolderWithSameNameAsDashboard
        else Err.ErrDashboardWithSameNameAsFolder)
    | none => Resolution.target target

/-- Modelled from the spec: the concurrency validator of section 4.4 is
declared outside src/.  It applies to an existing target only: without an
expected version the request needs the overwrite flag; an expected version
must equal the current version of the target, whatever the overwrite flag is. -/
def concurrencyValidator (dash : Dashboard) (overwrite : Bool) (target : Option Dashboard) :
    Option Err :=
  match target with
  | none => none
  | some t =>
    if dash.Version = 0 then
      if overwrite = false then some Err.ErrDashboardVersionMismatch else none
    else if dash.Version = t.Version then none
    else some Err.ErrDashboardVersionMismatch

/-- Modelled from the spec: the validators of sections 4.1 - 4.4, chained in
the order of section 2, each failing fast. -/
def resolve (lower : String → String) (store : List Dashboard) (org : Int) (dash : Dashboard)
    (overwrite : Bool) : Resolution :=
  match identityResolver store org dash with
  | Resolution.failed e => Resolution.failed e
  | Resolution.target target =>
    match folderResolver store org dash with
    | some e => Resolution.failed e
    | none =>
      match typeValidator dash target with
      | some e => Resolution.failed e
      | none =>
        match uidValidator store org dash target with
        | some e => Resolution.failed e
        | none =>
          match uniquenessValidator lower store org dash overwrite target with
          | Resolution.failed e => Resolution.failed e
          | Resolution.target target1 =>
            match concurrencyValidator dash overwrite target1 with
            | some e => Resolution.failed e
            | none => Resolution.target target1

/-- Modelled from the spec: the uid of the entity a save writes.  The uid of a
target the uniqueness validator put in place of the caller's supersedes the
uid of the request; otherwise the uid of the request stands, and a request
without uid keeps the uid of its target. -/
def resolvedUid (store : List Dashboard) (org : Int) (dash : Dashboard) (t : Dashboard) :
    String :=
  if identityResolver store org dash = Resolution.target (some t) then
    if dash.Uid = "" then t.Uid else dash.Uid
  else t.Uid

/-- Modelled from the spec: the handler of `ValidateDashboardBeforeSaveCommand`
is declared outside src/.  It runs the validators; when they resolve the
request to an existing target it writes the id and the uid of the target into
the dashboard.  The store is left as it is. -/
def validateDashboardBeforeSave (lower : String → String) (org : Int) (dash : Dashboard)
    (overwrite : Bool) (store : List Dashboard) : Option Err × Dashboard × List Dashboard :=
  match resolve lower store org dash overwrite with
  | Resolution.failed e => (some e, dash, store)
  | Resolution.target none => (none, dash, store)
  | Resolution.target (some t) =>
    (none, (dash.SetId t.Id).SetUid (resolvedUid store org dash t), store)

/-- Modelled from the spec: the id the storage assigns on a first commit, one
more than the largest id in the store. -/
def nextId (store : List Dashboard) : Int :=
  (store.map (fun e => e.Id)).foldl max 0 + 1

/-- Modelled from the spec: the uid the storage generates for an entity
committed without one: the first of the uids "g0", "g1", ... that no entity of
the organization holds.  Among the first `store.length + 1` of them one is
free. -/
def generatedUid (store : List Dashboard) (org : Int) : String :=
  match (List.range (store.length + 1)).find?
      (fun k => (findByUid store org ("g" ++ toString k)).isNone) with
  | some k => "g" ++ toString k
  | none => "g"

/-- Modelled from the spec: the persisted form of a creation (section 4.6):
the next id, the uid of the request or a generated one, version 1. -/
def createdEntity (store : List Dashboard) (cmd : SaveDashboardCommand) : Dashboard :=
  { Id := nextId store
    Uid := if cmd.GetDashboardModel.Uid = "" then generatedUid store cmd.OrgId
      else cmd.GetDashboardModel.Uid
    Slug := ""
    OrgId := cmd.OrgId
    Version := 1
    FolderId := cmd.FolderId
    IsFolder := cmd.IsFolder
    Title := cmd.GetDashboardModel.Title
    Data := cmd.Dashboard }

/-- Modelled from the spec: the persisted form of an update of the target `t`
(section 4.6): the id of the target, its uid unless the request names one, its
version incremented by exactly 1, the folder, title and body of the request. -/
def updatedEntity (t : Dashboard) (cmd : SaveDashboardCommand) : Dashboard :=
  { t with
    Uid := if cmd.GetDashboardModel.Uid = "" then t.Uid else cmd.GetDashboardModel.Uid
    Version := t.Version + 1
    FolderId := cmd.FolderId
    Title := cmd.GetDashboardModel.Title
    Data := cmd.Dashboard }

/-- Modelled from the spec: the handler of `SaveDashboardCommand` (the save
executor of section 4.6 with the commit of section 6) is declared outside
src/.  It validates again at commit time, then writes the persisted form: a
creation is added to the store, an update replaces its target.  It returns the
committed entity. -/
def commitDashboard (lower : String → String) (cmd : SaveDashboardCommand)
    (store : List Dashboard) : Option Err × Option Dashboard × List Dashboard :=
  match resolve lower store cmd.OrgId cmd.GetDashboardModel cmd.Overwrite with
  | Resolution.failed e => (some e, none, store)
  | Resolution.target none =>
    (none, some (createdEntity store cmd), store ++ [createdEntity store cmd])
  | Resolution.target (some t) =>
    (none, some (updatedEntity t cmd),
      store.map (fun e => if e.OrgId = t.OrgId ∧ e.Id = t.Id then updatedEntity t cmd else e))

/-- The environment of the modelled storage, for the case folding `lower`:
the guardian answers `canSave` without an error, the alert validation and the
alert synchronization answer as given, and none of the three touches the
store. -/
def storageEnv (lower : String → String) (canSave : Int → Int → SignedInUser → Bool)
    (alerts sync : Option Err) : Env (List Dashboard) where
  IsValidShortUid := IsValidShortUid
  ValidateDashboardAlerts := fun _ dash store => (alerts, dash, store)
  ValidateDashboardBeforeSave := validateDashboardBeforeSave lower
  NewDashboardGuardian := fun dashId orgId user =>
    ⟨fun store => ((canSave dashId orgId user, none), store)⟩
  SaveDashboard := commitDashboard lower
  SaveProvisionedDashboard := fun cmd _ store => commitDashboard lower cmd store
  UpdateDashboardAlerts := fun _ _ _ store => (sync, store)

/-- The dashboard of a request as `GetDashboardModel` yields it in the tests:
the fields and the body agree on id, uid, title and version. -/
def dashboardModel (id : Int) (uid title : String) (version : Int) (isFolder : Bool)
    (folderId : Int) : Dashboard :=
  { Id := id
    Uid := uid
    Slug := ""
    OrgId := 1
    Version := version
    FolderId := folderId
    IsFolder := isFolder
    Title := title
    Data := ⟨[("id", JsonValue.num id), ("uid", JsonValue.str uid),
      ("title", JsonValue.str title), ("version", JsonValue.num version)]⟩ }

/-- A store like the one of the integration test: folder "Saved folder" (1),
"Saved dash in folder" (2) in that folder, "Saved dashboard in general folder"
(3), all of organization 1 and at version 1. -/
def savedStore : List Dashboard :=
  [dashboardModel 1 "fold" "Saved folder" 1 true 0,
    dashboardModel 2 "dash" "Saved dash in folder" 1 false 1,
    dashboardModel 3 "gen" "Saved dashboard in general folder" 1 false 0]

/-- A request of user 7 in organization 1 for the given dashboard. -/
def requestFor (dash : Dashboard) (overwrite : Bool) : SaveDashboardDTO :=
  { OrgId := 1
    UpdatedAt := ⟨0⟩
    User := { UserId := 7, OrgRole := RoleType.ROLE_EDITOR }
    Message := ""
    Overwrite := overwrite
    Dashboard := dash }


/-- The guardian that permits every save. -/
def permitAll : Int → Int → SignedInUser → Bool :=
  fun _ _ _ => true

/-! ## Auxiliary facts -/

/-- An upper-case ASCII letter is not white space. -/
theorem isSpace_of_upper (c : Char) (h : 65 ≤ c.toNat ∧ c.toNat ≤ 90) : isSpace c = false := by
  simp only [isSpace, Bool.or_eq_false_iff, Bool.and_eq_false_iff, decide_eq_false_iff_not,
    beq_eq_false_iff_ne, ne_eq]
  omega

/-- A rune whose lower case is not white space is not white space. -/
theorem isSpace_of_toLowerRune (c x : Char) (h : toLowerRune c = x) (hx : isSpace x = false) :
    isSpace c = false := by
  unfold toLowerRune at h
  split at h
  · next hu => exact isSpace_of_upper c hu
  · subst h; exact hx

/-- The lower case of the reserved root-folder name. -/
theorem ToLower_RootFolderName : ToLower RootFolderName = ⟨['g', 'e', 'n', 'e', 'r', 'a', 'l']⟩ := by
  decide

/-- A title that equals the reserved name up to case has no surrounding white
space and is not empty. -/
theorem TrimSpace_of_ToLower_eq_root (t : String) (h : ToLower t = ToLower RootFolderName) :
    TrimSpace t = t ∧ t ≠ "" := by
  rw [ToLower_RootFolderName] at h
  have hd : t.data.map toLowerRune = ['g', 'e', 'n', 'e', 'r', 'a', 'l'] := congrArg String.data h
  obtain ⟨l⟩ := t
  simp only [List.map_eq_cons_iff, List.map_eq_nil_iff] at hd
  obtain ⟨c1, l1, rfl, h1, c2, l2, rfl, -, c3, l3, rfl, -, c4, l4, rfl, -, c5, l5, rfl, -,
    c6, l6, rfl, -, c7, l7, rfl, h7, rfl⟩ := hd
  have s1 : isSpace c1 = false := isSpace_of_toLowerRune c1 _ h1 (by decide)
  have s7 : isSpace c7 = false := isSpace_of_toLowerRune c7 _ h7 (by decide)
  constructor
  · simp [TrimSpace, List.dropWhile, s1, s7]
  · intro hc
    have := congrArg String.data hc
    simp at this

/-- When a local check fails, `buildSaveDashboardCommand` returns its error at
once: no collaborator is invoked and the world is untouched. -/
theorem build_of_localError {W : Type} (E : Env W) (dto : SaveDashboardDTO) (w : W) (e : Err)
    (h : localError E.IsValidShortUid (normalize dto.Dashboard) = some e) :
    buildSaveDashboardCommand E dto w = ⟨none, some e, [], w⟩ := by
  unfold localError at h
  unfold buildSaveDashboardCommand
  simp only [normalize] at h
  simp only []
  split_ifs at h ⊢ <;> simp_all

/-- When every local check passes, `buildSaveDashboardCommand` is the chain of
alert validation, before-save validation and permission gate. -/
theorem build_of_localError_none {W : Type} (E : Env W) (dto : SaveDashboardDTO) (w : W)
    (h : localError E.IsValidShortUid (normalize dto.Dashboard) = none) :
    buildSaveDashboardCommand E dto w =
      match E.ValidateDashboardAlerts dto.OrgId (normalize dto.Dashboard) w with
      | (some _, _, w1) =>
        ⟨none, some Err.ErrDashboardContainsInvalidAlertData,
          [Call.ValidateDashboardAlerts dto.OrgId (normalize dto.Dashboard)], w1⟩
      | (none, dash1, w1) =>
        match E.ValidateDashboardBeforeSave dto.OrgId dash1 dto.Overwrite w1 with
        | (some e, _, w2) =>
          ⟨none, some e, [Call.ValidateDashboardAlerts dto.OrgId (normalize dto.Dashboard),
            Call.ValidateDashboardBeforeSave dto.OrgId dash1 dto.Overwrite], w2⟩
        | (none, dash2, w2) =>
          match (E.NewDashboardGuardian (guardianDashId dash2) dto.OrgId dto.User).CanSave w2 with
          | ((_, some e), w3) =>
            ⟨none, some e, [Call.ValidateDashboardAlerts dto.OrgId (normalize dto.Dashboard),
              Call.ValidateDashboardBeforeSave dto.OrgId dash1 dto.Overwrite,
              Call.CanSave (guardianDashId dash2) dto.OrgId dto.User], w3⟩
          | ((false, none), w3) =>
            ⟨none, some Err.ErrDashboardUpdateAccessDenied,
              [Call.ValidateDashboardAlerts dto.OrgId (normalize dto.Dashboard),
              Call.ValidateDashboardBeforeSave dto.OrgId dash1 dto.Overwrite,
              Call.CanSave (guardianDashId dash2) dto.OrgId dto.User], w3⟩
          | ((true, none), w3) =>
            ⟨some (newSaveDashboardCommand dto dash2), none,
              [Call.ValidateDashboardAlerts dto.OrgId (normalize dto.Dashboard),
              Call.ValidateDashboardBeforeSave dto.OrgId dash1 dto.Overwrite,
              Call.CanSave (guardianDashId dash2) dto.OrgId dto.User], w3⟩ := by
  unfold localError at h
  unfold buildSaveDashboardCommand
  simp only [normalize] at h
  split_ifs at h with h1 h2 h3 h4 h5
  simp only [if_neg h1, if_neg h2, if_neg h3, if_neg h4, if_neg h5]
  rfl

/-- The alert validation fails: its error is replaced. -/
theorem build_alerts_failed {W : Type} (E : Env W) (dto : SaveDashboardDTO) (w w1 : W)
    (e : Err) (d : Dashboard)
    (hl : localError E.IsValidShortUid (normalize dto.Dashboard) = none)
    (ha : E.ValidateDashboardAlerts dto.OrgId (normalize dto.Dashboard) w = (some e, d, w1)) :
    buildSaveDashboardCommand E dto w =
      ⟨none, some Err.ErrDashboardContainsInvalidAlertData,
        [Call.ValidateDashboardAlerts dto.OrgId (normalize dto.Dashboard)], w1⟩ := by
  rw [build_of_localError_none E dto w hl, ha]

/-- The before-save validation fails: its error is returned. -/
theorem build_beforeSave_failed {W : Type} (E : Env W) (dto : SaveDashboardDTO) (w w1 w2 : W)
    (e : Err) (d1 d : Dashboard)
    (hl : localError E.IsValidShortUid (normalize dto.Dashboard) = none)
    (ha : E.ValidateDashboardAlerts dto.OrgId (normalize dto.Dashboard) w = (none, d1, w1))
    (hb : E.ValidateDashboardBeforeSave dto.OrgId d1 dto.Overwrite w1 = (some e, d, w2)) :
    buildSaveDashboardCommand E dto w =
      ⟨none, some e, [Call.ValidateDashboardAlerts dto.OrgId (normalize dto.Dashboard),
        Call.ValidateDashboardBeforeSave dto.OrgId d1 dto.Overwrite], w2⟩ := by
  rw [build_of_localError_none E dto w hl, ha]
  simp only [hb]

/-- The guardian answers with an error: the error is returned. -/
theorem build_guardian_failed {W : Type} (E : Env W) (dto : SaveDashboardDTO) (w w1 w2 w3 : W)
    (e : Err) (b : Bool) (d1 d2 : Dashboard)
    (hl : localError E.IsValidShortUid (normalize dto.Dashboard) = none)
    (ha : E.ValidateDashboardAlerts dto.OrgId (normalize dto.Dashboard) w = (none, d1, w1))
    (hb : E.ValidateDashboardBeforeSave dto.OrgId d1 dto.Overwrite w1 = (none, d2, w2))
    (hg : (E.NewDashboardGuardian (guardianDashId d2) dto.OrgId dto.User).CanSave w2
      = ((b, some e), w3)) :
    buildSaveDashboardCommand E dto w =
      ⟨none, some e, [Call.ValidateDashboardAlerts dto.OrgId (normalize dto.Dashboard),
        Call.ValidateDashboardBeforeSave dto.OrgId d1 dto.Overwrite,
        Call.CanSave (guardianDashId d2) dto.OrgId dto.User], w3⟩ := by
  rw [build_of_localError_none E dto w hl, ha]
  simp only [hb, hg]

/-- The guardian answers no, without an error: access is denied. -/
theorem build_guardian_denied {W : Type} (E : Env W) (dto : SaveDashboardDTO) (w w1 w2 w3 : W)
    (d1 d2 : Dashboard)
    (hl : localError E.IsValidShortUid (normalize dto.Dashboard) = none)
    (ha : E.ValidateDashboardAlerts dto.OrgId (normalize dto.Dashboard) w = (none, d1, w1))
    (hb : E.ValidateDashboardBeforeSave dto.OrgId d1 dto.Overwrite w1 = (none, d2, w2))
    (hg : (E.NewDashboardGuardian (guardianDashId d2) dto.OrgId dto.User).CanSave w2
      = ((false, none), w3)) :
    buildSaveDashboardCommand E dto w =
      ⟨none, some Err.ErrDashboardUpdateAccessDenied,
        [Call.ValidateDashboardAlerts dto.OrgId (normalize dto.Dashboard),
        Call.ValidateDashboardBeforeSave dto.OrgId d1 dto.Overwrite,
        Call.CanSave (guardianDashId d2) dto.OrgId dto.User], w3⟩ := by
  rw [build_of_localError_none E dto w hl, ha]
  simp only [hb, hg]

/-- The guardian answers yes: the command is built. -/
theorem build_guardian_granted {W : Type} (E : Env W) (dto : SaveDashboardDTO) (w w1 w2 w3 : W)
    (d1 d2 : Dashboard)
    (hl : localError E.IsValidShortUid (normalize dto.Dashboard) = none)
    (ha : E.ValidateDashboardAlerts dto.OrgId (normalize dto.Dashboard) w = (none, d1, w1))
    (hb : E.ValidateDashboardBeforeSave dto.OrgId d1 dto.Overwrite w1 = (none, d2, w2))
    (hg : (E.NewDashboardGuardian (guardianDashId d2) dto.OrgId dto.User).CanSave w2
      = ((true, none), w3)) :
    buildSaveDashboardCommand E dto w =
      ⟨some (newSaveDashboardCommand dto d2), none,
        [Call.ValidateDashboardAlerts dto.OrgId (normalize dto.Dashboard),
        Call.ValidateDashboardBeforeSave dto.OrgId d1 dto.Overwrite,
        Call.CanSave (guardianDashId d2) dto.OrgId dto.User], w3⟩ := by
  rw [build_of_localError_none E dto w hl, ha]
  simp only [hb, hg]

/-- An error of `buildSaveDashboardCommand` is the error of `SaveDashboard`. -/
theorem save_of_build_failed {W : Type} (E : Env W) (dto : SaveDashboardDTO) (w w1 : W)
    (v : Option SaveDashboardCommand) (e : Err) (cs : List Call)
    (h : buildSaveDashboardCommand E dto w = ⟨v, some e, cs, w1⟩) :
    SaveDashboard E dto w = ⟨none, some e, cs, w1⟩ := by
  simp [SaveDashboard, h]

/-- The commit fails: its error is returned and the alerts are not synchronized. -/
theorem save_commit_failed {W : Type} (E : Env W) (dto : SaveDashboardDTO) (w w1 w2 : W)
    (cmd : SaveDashboardCommand) (cs : List Call) (e : Err) (r : Option Dashboard)
    (h : buildSaveDashboardCommand E dto w = ⟨some cmd, none, cs, w1⟩)
    (hs : E.SaveDashboard cmd w1 = (some e, r, w2)) :
    SaveDashboard E dto w = ⟨none, some e, cs ++ [Call.SaveDashboard cmd], w2⟩ := by
  simp [SaveDashboard, h, hs]

/-- The commit succeeds and the alert synchronization fails. -/
theorem save_sync_failed {W : Type} (E : Env W) (dto : SaveDashboardDTO) (w w1 w2 w3 : W)
    (cmd : SaveDashboardCommand) (cs : List Call) (e : Err) (r : Option Dashboard)
    (h : buildSaveDashboardCommand E dto w = ⟨some cmd, none, cs, w1⟩)
    (hs : E.SaveDashboard cmd w1 = (none, r, w2))
    (hu : E.UpdateDashboardAlerts dto.OrgId dto.User.UserId r w2 = (some e, w3)) :
    SaveDashboard E dto w = ⟨none, some Err.ErrDashboardFailedToUpdateAlertData,
      cs ++ [Call.SaveDashboard cmd, Call.UpdateDashboardAlerts dto.OrgId dto.User.UserId r],
      w3⟩ := by
  simp [SaveDashboard, h, hs, updateAlerting, hu]

/-- The commit and the alert synchronization succeed. -/
theorem save_succeeded {W : Type} (E : Env W) (dto : SaveDashboardDTO) (w w1 w2 w3 : W)
    (cmd : SaveDashboardCommand) (cs : List Call) (r : Option Dashboard)
    (h : buildSaveDashboardCommand E dto w = ⟨some cmd, none, cs, w1⟩)
    (hs : E.SaveDashboard cmd w1 = (none, r, w2))
    (hu : E.UpdateDashboardAlerts dto.OrgId dto.User.UserId r w2 = (none, w3)) :
    SaveDashboard E dto w = ⟨r, none,
      cs ++ [Call.SaveDashboard cmd, Call.UpdateDashboardAlerts dto.OrgId dto.User.UserId r],
      w3⟩ := by
  simp [SaveDashboard, h, hs, updateAlerting, hu]

/-! ## Local checks (C1 - C5) -/

/-- C1: a save request whose title is empty after trimming surrounding white
space fails with `ErrDashboardTitleEmpty`, whatever its other fields are, in
`SaveDashboard`, `SaveProvisionedDashboard` and
`SaveFolderForProvisionedDashboards` alike; no entity is returned, no
collaborator is invoked (the list of calls is empty) and the world is left as
it was. -/
theorem empty_title_rejected {W : Type} (E : Env W) (dto : SaveDashboardDTO)
    (provisioning : DashboardProvisioning) (w : W) (h : TrimSpace dto.Dashboard.Title = "") :
    SaveDashboard E dto w = ⟨none, some Err.ErrDashboardTitleEmpty, [], w⟩
      ∧ SaveProvisionedDashboard E dto provisioning w
          = ⟨none, some Err.ErrDashboardTitleEmpty, [], w⟩
      ∧ SaveFolderForProvisionedDashboards E dto w
          = ⟨none, some Err.ErrDashboardTitleEmpty, [], w⟩ := by
  have hl : ∀ u : SignedInUser,
      localError E.IsValidShortUid (normalize { dto with User := u }.Dashboard)
        = some Err.ErrDashboardTitleEmpty := by
    intro u
    simp [localError, normalize, Dashboard.SetUid, h]
  refine ⟨?_, ?_, ?_⟩
  · have hb := build_of_localError E dto w _ (hl dto.User)
    simp [SaveDashboard, hb]
  · have hb := build_of_localError E { dto with User := provisioningUser } w _ (hl _)
    simp [SaveProvisionedDashboard, hb]
  · have hb := build_of_localError E { dto with User := provisioningUser } w _ (hl _)
    simp [SaveFolderForProvisionedDashboards, hb]

/-- C1, at a concrete input: a title of blanks and tabs, sent by a user the
guardian would turn away. -/
theorem empty_title_rejected_witness :
    TrimSpace (request 0 " \t " "abc" false 3).Dashboard.Title = ""
      ∧ SaveDashboard (scriptedEnv { allOk with canSave := (false, none) })
          (request 0 " \t " "abc" false 3) []
          = ⟨none, some Err.ErrDashboardTitleEmpty, [], []⟩
      ∧ SaveProvisionedDashboard (scriptedEnv { allOk with canSave := (false, none) })
          (request 0 " \t " "abc" false 3) provisioningRecord []
          = ⟨none, some Err.ErrDashboardTitleEmpty, [], []⟩
      ∧ SaveFolderForProvisionedDashboards (scriptedEnv { allOk with canSave := (false, none) })
          (request 0 " \t " "abc" false 3) []
          = ⟨none, some Err.ErrDashboardTitleEmpty, [], []⟩ :=
  ⟨by decide, empty_title_rejected _ _ _ _ (by decide)⟩

/-- C2, as stated, fails twice over.  A folder whose `FolderId` is `-1` passes
the parent check (here the save goes through to the end), and a folder with
parent 5 whose title is blank is rejected for its title. -/
theorem folder_parent_counterexample :
    ((request 0 "Prod" "" true (-1)).Dashboard.IsFolder = true
        ∧ (request 0 "Prod" "" true (-1)).Dashboard.FolderId ≠ 0
        ∧ (SaveDashboard (scriptedEnv allOk) (request 0 "Prod" "" true (-1)) []).err = none)
      ∧ ((request 0 "  " "" true 5).Dashboard.IsFolder = true
        ∧ (request 0 "  " "" true 5).Dashboard.FolderId ≠ 0
        ∧ (SaveDashboard (scriptedEnv allOk) (request 0 "  " "" true 5) []).err
            = some Err.ErrDashboardTitleEmpty) := by
  decide

/-- C2, amended: in every environment (hence for every organization), a save
request with `IsFolder = true`, a `FolderId` greater than 0 and a title that is
not empty after trimming fails with `ErrDashboardFolderCannotHaveParent`; no
collaborator is invoked. -/
theorem folder_with_parent_rejected {W : Type} (E : Env W) (dto : SaveDashboardDTO) (w : W)
    (ht : TrimSpace dto.Dashboard.Title ≠ "") (hf : dto.Dashboard.IsFolder = true)
    (hp : dto.Dashboard.FolderId > 0) :
    SaveDashboard E dto w = ⟨none, some Err.ErrDashboardFolderCannotHaveParent, [], w⟩ := by
  have hb := build_of_localError E dto w Err.ErrDashboardFolderCannotHaveParent
    (by simp [localError, normalize, Dashboard.SetUid, ht, hf, hp])
  simp [SaveDashboard, hb]

/-- C2 amended, at a concrete input: folder "Prod" with parent 5. -/
theorem folder_with_parent_rejected_witness :
    SaveDashboard (scriptedEnv allOk) (request 0 "Prod" "" true 5) []
      = ⟨none, some Err.ErrDashboardFolderCannotHaveParent, [], []⟩ :=
  folder_with_parent_rejected _ _ _ (by decide) (by decide) (by decide)

/-- C3, as stated, fails: a folder titled "General" with parent 5 is rejected
for having a parent, not for its name. -/
theorem reserved_name_counterexample :
    (request 0 "General" "" true 5).Dashboard.IsFolder = true
      ∧ ToLower (request 0 "General" "" true 5).Dashboard.Title = ToLower RootFolderName
      ∧ (SaveDashboard (scriptedEnv allOk) (request 0 "General" "" true 5) []).err
          = some Err.ErrDashboardFolderCannotHaveParent
      ∧ (SaveDashboard (scriptedEnv allOk) (request 0 "General" "" true 5) []).err
          ≠ some Err.ErrDashboardFolderNameExists := by
  decide

/-- C3, amended: a save request with `IsFolder = true`, a `FolderId` that is
not greater than 0 and a title equal to `RootFolderName` up to case fails with
`ErrDashboardFolderNameExists`, whatever its uid and overwrite flag are; no
collaborator is invoked. -/
theorem reserved_folder_name_rejected {W : Type} (E : Env W) (dto : SaveDashboardDTO) (w : W)
    (hf : dto.Dashboard.IsFolder = true) (hp : dto.Dashboard.FolderId ≤ 0)
    (ht : ToLower dto.Dashboard.Title = ToLower RootFolderName) :
    SaveDashboard E dto w = ⟨none, some Err.ErrDashboardFolderNameExists, [], w⟩ := by
  obtain ⟨htrim, hne⟩ := TrimSpace_of_ToLower_eq_root _ ht
  have hp' : ¬ dto.Dashboard.FolderId > 0 := not_lt.mpr hp
  have hb := build_of_localError E dto w Err.ErrDashboardFolderNameExists
    (by simp [localError, normalize, Dashboard.SetUid, htrim, hne, hf, hp', ht])
  simp [SaveDashboard, hb]

/-- C3 amended, at a concrete input: folder "gEnErAl" at the root, with a uid
and the overwrite flag set. -/
theorem reserved_folder_name_rejected_witness :
    SaveDashboard (scriptedEnv allOk)
        { request 0 "gEnErAl" "abc" true 0 with Overwrite := true } []
      = ⟨none, some Err.ErrDashboardFolderNameExists, [], []⟩ :=
  reserved_folder_name_rejected _ _ _ (by decide) (by decide) (by decide)

/-- C4: a save request that passes the title check and the two folder checks
and whose trimmed uid fails `util.IsValidShortUid` fails with
`ErrDashboardInvalidUid`; no collaborator is invoked and the world is left as
it was. -/
theorem invalid_uid_rejected {W : Type} (E : Env W) (dto : SaveDashboardDTO) (w : W)
    (ht : TrimSpace dto.Dashboard.Title ≠ "")
    (hp : ¬ (dto.Dashboard.IsFolder = true ∧ dto.Dashboard.FolderId > 0))
    (hr : ¬ (dto.Dashboard.IsFolder = true
      ∧ ToLower (TrimSpace dto.Dashboard.Title) = ToLower RootFolderName))
    (hu : E.IsValidShortUid (TrimSpace dto.Dashboard.Uid) = false) :
    SaveDashboard E dto w = ⟨none, some Err.ErrDashboardInvalidUid, [], w⟩ := by
  have hb := build_of_localError E dto w Err.ErrDashboardInvalidUid
    (by
      simp only [localError, normalize, Dashboard.SetUid]
      rw [if_neg ht, if_neg hp, if_neg hr, if_pos hu])
  simp [SaveDashboard, hb]

/-- C4, at a concrete input: the uid " a b " holds a blank after trimming. -/
theorem invalid_uid_rejected_witness :
    SaveDashboard (scriptedEnv allOk) (request 0 "Prod" " a b " false 3) []
      = ⟨none, some Err.ErrDashboardInvalidUid, [], []⟩ :=
  invalid_uid_rejected _ _ _ (by decide) (by decide) (by decide) (by decide)

/-- C5, as stated, fails: a uid of 41 exclamation marks passes the title and
folder checks and is longer than 40 bytes, yet the request is rejected with
`ErrDashboardInvalidUid`, because the format check comes first. -/
theorem long_uid_counterexample :
    TrimSpace (request 0 "Prod" "!!!!!!!!!!!!!!!!!!!!!!!!!!!!!!!!!!!!!!!!!" false 3).Dashboard.Title
        ≠ ""
      ∧ (request 0 "Prod" "!!!!!!!!!!!!!!!!!!!!!!!!!!!!!!!!!!!!!!!!!" false 3).Dashboard.IsFolder
        = false
      ∧ len (TrimSpace
          (request 0 "Prod" "!!!!!!!!!!!!!!!!!!!!!!!!!!!!!!!!!!!!!!!!!" false 3).Dashboard.Uid) > 40
      ∧ (SaveDashboard (scriptedEnv allOk)
          (request 0 "Prod" "!!!!!!!!!!!!!!!!!!!!!!!!!!!!!!!!!!!!!!!!!" false 3) []).err
          = some Err.ErrDashboardInvalidUid
      ∧ (SaveDashboard (scriptedEnv allOk)
          (request 0 "Prod" "!!!!!!!!!!!!!!!!!!!!!!!!!!!!!!!!!!!!!!!!!" false 3) []).err
          ≠ some Err.ErrDashboardUidToLong := by
  decide

/-- C5, amended: a save request that passes the title check and the two folder
checks and whose trimmed uid passes `util.IsValidShortUid` and is longer than
40 bytes fails with `ErrDashboardUidToLong`; no collaborator is invoked. -/
theorem long_uid_rejected {W : Type} (E : Env W) (dto : SaveDashboardDTO) (w : W)
    (ht : TrimSpace dto.Dashboard.Title ≠ "")
    (hp : ¬ (dto.Dashboard.IsFolder = true ∧ dto.Dashboard.FolderId > 0))
    (hr : ¬ (dto.Dashboard.IsFolder = true
      ∧ ToLower (TrimSpace dto.Dashboard.Title) = ToLower RootFolderName))
    (hu : E.IsValidShortUid (TrimSpace dto.Dashboard.Uid) = true)
    (hlen : len (TrimSpace dto.Dashboard.Uid) > 40) :
    SaveDashboard E dto w = ⟨none, some Err.ErrDashboardUidToLong, [], w⟩ := by
  have hu' : ¬ E.IsValidShortUid (TrimSpace dto.Dashboard.Uid) = false := by simp [hu]
  have hb := build_of_localError E dto w Err.ErrDashboardUidToLong
    (by
      simp only [localError, normalize, Dashboard.SetUid]
      rw [if_neg ht, if_neg hp, if_neg hr, if_neg hu', if_pos hlen])
  simp [SaveDashboard, hb]

/-- C5 amended, at a concrete input: a uid of 41 letters. -/
theorem long_uid_rejected_witness :
    SaveDashboard (scriptedEnv allOk)
        (request 0 "Prod" "aaaaaaaaaaaaaaaaaaaaaaaaaaaaaaaaaaaaaaaaa" false 3) []
      = ⟨none, some Err.ErrDashboardUidToLong, [], []⟩ :=
  long_uid_rejected _ _ _ (by decide) (by decide) (by decide) (by decide) (by decide)

/-! ## The permission gate (C6 - C8) -/

/-- C6: when the local checks, the alert validation and the before-save
validation all pass, the guardian is consulted exactly once, and it was
constructed with the dashboard's id as the before-save validation left it when
that id is not zero, otherwise with the dashboard's folder id (0 for the root
folder), together with the request's organization id `dto.OrgId` and the
request's user `dto.User`. -/
theorem guardian_arguments {W : Type} (E : Env W) (dto : SaveDashboardDTO) (w w1 w2 : W)
    (d1 d2 : Dashboard)
    (hl : localError E.IsValidShortUid (normalize dto.Dashboard) = none)
    (ha : E.ValidateDashboardAlerts dto.OrgId (normalize dto.Dashboard) w = (none, d1, w1))
    (hb : E.ValidateDashboardBeforeSave dto.OrgId d1 dto.Overwrite w1 = (none, d2, w2)) :
    (SaveDashboard E dto w).calls.filter (fun c => c.stage = Stage.Guardian)
      = [Call.CanSave (if d2.Id ≠ 0 then d2.Id else d2.FolderId) dto.OrgId dto.User] := by
  have hid : (if d2.Id ≠ 0 then d2.Id else d2.FolderId) = guardianDashId d2 := by
    unfold guardianDashId
    split_ifs <;> simp_all
  rw [hid]
  rcases hg : (E.NewDashboardGuardian (guardianDashId d2) dto.OrgId dto.User).CanSave w2 with
    ⟨⟨b, _ | e⟩, w3⟩
  · cases b
    · rw [save_of_build_failed E dto w w3 _ _ _ (build_guardian_denied E dto w w1 w2 w3 d1 d2 hl ha hb hg)]
      simp [Call.stage]
    · have hbuild := build_guardian_granted E dto w w1 w2 w3 d1 d2 hl ha hb hg
      rcases hs : E.SaveDashboard (newSaveDashboardCommand dto d2) w3 with ⟨_ | e, r, w4⟩
      · rcases hu : E.UpdateDashboardAlerts dto.OrgId dto.User.UserId r w4 with ⟨_ | e, w5⟩
        · rw [save_succeeded E dto w w3 w4 w5 _ _ r hbuild hs hu]
          simp [Call.stage]
        · rw [save_sync_failed E dto w w3 w4 w5 _ _ e r hbuild hs hu]
          simp [Call.stage]
      · rw [save_commit_failed E dto w w3 w4 _ _ e r hbuild hs]
        simp [Call.stage]
  · rw [save_of_build_failed E dto w w3 _ _ _ (build_guardian_failed E dto w w1 w2 w3 e b d1 d2 hl ha hb hg)]
    simp [Call.stage]

/-- C6, at a concrete input: an update of dashboard 42 in folder 3 consults the
guardian for entity 42, organization 1 and the request's user 7. -/
theorem guardian_arguments_witness :
    (SaveDashboard (scriptedEnv allOk) (request 42 "Prod" "abc" false 3) []).calls.filter
        (fun c => c.stage = Stage.Guardian)
      = [Call.CanSave 42 1 { UserId := 7, OrgRole := RoleType.ROLE_EDITOR }] :=
  guardian_arguments (scriptedEnv allOk) (request 42 "Prod" "abc" false 3) [] [] []
    (normalize (request 42 "Prod" "abc" false 3).Dashboard)
    (normalize (request 42 "Prod" "abc" false 3).Dashboard) (by decide) rfl rfl

/-- C7: for a save request that reaches the permission gate (local checks,
alert validation and before-save validation passed), whatever its overwrite
flag is: if `CanSave` returns an error `e`, with either boolean,
`SaveDashboard` fails with exactly `e`; if it returns `(false, nil)`,
`SaveDashboard` fails with `ErrDashboardUpdateAccessDenied`; in both cases the
guardian call is the last call, so neither the commit nor the alert
synchronization is invoked; and the commit is invoked exactly when `CanSave`
returns `(true, nil)`, with the command built from the request. -/
theorem permission_gate {W : Type} (E : Env W) (dto : SaveDashboardDTO) (w w1 w2 w3 : W)
    (d1 d2 : Dashboard) (r : Bool × Option Err)
    (hl : localError E.IsValidShortUid (normalize dto.Dashboard) = none)
    (ha : E.ValidateDashboardAlerts dto.OrgId (normalize dto.Dashboard) w = (none, d1, w1))
    (hb : E.ValidateDashboardBeforeSave dto.OrgId d1 dto.Overwrite w1 = (none, d2, w2))
    (hg : (E.NewDashboardGuardian (guardianDashId d2) dto.OrgId dto.User).CanSave w2 = (r, w3)) :
    (∀ e, r.2 = some e →
        SaveDashboard E dto w = ⟨none, some e,
          [Call.ValidateDashboardAlerts dto.OrgId (normalize dto.Dashboard),
            Call.ValidateDashboardBeforeSave dto.OrgId d1 dto.Overwrite,
            Call.CanSave (guardianDashId d2) dto.OrgId dto.User], w3⟩)
      ∧ (r = (false, none) →
        SaveDashboard E dto w = ⟨none, some Err.ErrDashboardUpdateAccessDenied,
          [Call.ValidateDashboardAlerts dto.OrgId (normalize dto.Dashboard),
            Call.ValidateDashboardBeforeSave dto.OrgId d1 dto.Overwrite,
            Call.CanSave (guardianDashId d2) dto.OrgId dto.User], w3⟩)
      ∧ (r = (true, none) →
        (SaveDashboard E dto w).calls.take 4 =
          [Call.ValidateDashboardAlerts dto.OrgId (normalize dto.Dashboard),
            Call.ValidateDashboardBeforeSave dto.OrgId d1 dto.Overwrite,
            Call.CanSave (guardianDashId d2) dto.OrgId dto.User,
            Call.SaveDashboard (newSaveDashboardCommand dto d2)])
      ∧ ((∃ c ∈ (SaveDashboard E dto w).calls, c.stage = Stage.Commit) ↔ r = (true, none)) := by
  obtain ⟨b, oe⟩ := r
  rcases oe with _ | e
  · cases b
    · have hsave := save_of_build_failed E dto w w3 _ _ _
        (build_guardian_denied E dto w w1 w2 w3 d1 d2 hl ha hb hg)
      refine ⟨by simp, fun _ => hsave, by simp, ?_⟩
      rw [hsave]
      simp [Call.stage]
    · have hbuild := build_guardian_granted E dto w w1 w2 w3 d1 d2 hl ha hb hg
      refine ⟨by simp, by simp, ?_⟩
      rcases hs : E.SaveDashboard (newSaveDashboardCommand dto d2) w3 with ⟨_ | e, res, w4⟩
      · rcases hu : E.UpdateDashboardAlerts dto.OrgId dto.User.UserId res w4 with ⟨_ | e, w5⟩
        · rw [save_succeeded E dto w w3 w4 w5 _ _ res hbuild hs hu]
          simp [Call.stage]
        · rw [save_sync_failed E dto w w3 w4 w5 _ _ e res hbuild hs hu]
          simp [Call.stage]
      · rw [save_commit_failed E dto w w3 w4 _ _ e res hbuild hs]
        simp [Call.stage]
  · have hsave := save_of_build_failed E dto w w3 _ _ _
      (build_guardian_failed E dto w w1 w2 w3 e b d1 d2 hl ha hb hg)
    refine ⟨?_, by simp, by simp, ?_⟩
    · intro e' he'
      simp only [Option.some.injEq] at he'
      subst he'
      exact hsave
    · rw [hsave]
      simp [Call.stage]

/-- C7, at a concrete input: the guardian returns `(true, e)` with `e` an
error of its own, and the overwrite flag is set; the save fails with `e` after
the guardian call. -/
theorem permission_gate_witness :
    SaveDashboard (scriptedEnv { allOk with canSave := (true, some (Err.other "acl lookup")) })
        { request 42 "Prod" "abc" false 3 with Overwrite := true } []
      = ⟨none, some (Err.other "acl lookup"),
          [Call.ValidateDashboardAlerts 1 (normalize (request 42 "Prod" "abc" false 3).Dashboard),
            Call.ValidateDashboardBeforeSave 1
              (normalize (request 42 "Prod" "abc" false 3).Dashboard) true,
            Call.CanSave 42 1 { UserId := 7, OrgRole := RoleType.ROLE_EDITOR }], []⟩ :=
  (permission_gate (scriptedEnv { allOk with canSave := (true, some (Err.other "acl lookup")) })
    { request 42 "Prod" "abc" false 3 with Overwrite := true } [] [] [] []
    (normalize (request 42 "Prod" "abc" false 3).Dashboard)
    (normalize (request 42 "Prod" "abc" false 3).Dashboard)
    (true, some (Err.other "acl lookup")) (by decide) rfl rfl rfl).1 _ rfl

/-- C8: the permission check happens only after every structural validation
has passed.  In every environment, hence also when the guardian would deny:
when a local check (empty title, folder with parent, reserved folder name, uid
format, uid length) fails, `SaveDashboard` returns the error of that check and
invokes no collaborator at all; when the before-save validation fails,
`SaveDashboard` returns its error and the guardian is not consulted; and
conversely, whenever the guardian was consulted (in particular whenever the
gate produced `ErrDashboardUpdateAccessDenied`), the local checks, the alert
validation and the before-save validation had all passed. -/
theorem structural_errors_before_permission {W : Type} (E : Env W) (dto : SaveDashboardDTO)
    (w : W) :
    (∀ e, localError E.IsValidShortUid (normalize dto.Dashboard) = some e →
        SaveDashboard E dto w = ⟨none, some e, [], w⟩
          ∧ e ∈ [Err.ErrDashboardTitleEmpty, Err.ErrDashboardFolderCannotHaveParent,
              Err.ErrDashboardFolderNameExists, Err.ErrDashboardInvalidUid,
              Err.ErrDashboardUidToLong])
      ∧ (∀ e d1 d w1 w2, localError E.IsValidShortUid (normalize dto.Dashboard) = none →
        E.ValidateDashboardAlerts dto.OrgId (normalize dto.Dashboard) w = (none, d1, w1) →
        E.ValidateDashboardBeforeSave dto.OrgId d1 dto.Overwrite w1 = (some e, d, w2) →
        SaveDashboard E dto w = ⟨none, some e,
          [Call.ValidateDashboardAlerts dto.OrgId (normalize dto.Dashboard),
            Call.ValidateDashboardBeforeSave dto.OrgId d1 dto.Overwrite], w2⟩)
      ∧ ((∃ c ∈ (SaveDashboard E dto w).calls, c.stage = Stage.Guardian) →
        localError E.IsValidShortUid (normalize dto.Dashboard) = none
          ∧ ∃ d1 w1 d2 w2,
            E.ValidateDashboardAlerts dto.OrgId (normalize dto.Dashboard) w = (none, d1, w1)
              ∧ E.ValidateDashboardBeforeSave dto.OrgId d1 dto.Overwrite w1 = (none, d2, w2)) := by
  refine ⟨?_, ?_, ?_⟩
  · intro e he
    refine ⟨save_of_build_failed E dto w w _ _ _ (build_of_localError E dto w e he), ?_⟩
    unfold localError at he
    split_ifs at he <;> simp_all
  · intro e d1 d w1 w2 hl ha hb
    exact save_of_build_failed E dto w w2 _ _ _
      (build_beforeSave_failed E dto w w1 w2 e d1 d hl ha hb)
  · rintro ⟨c, hc, hstage⟩
    rcases hl : localError E.IsValidShortUid (normalize dto.Dashboard) with _ | e
    · refine ⟨rfl, ?_⟩
      rcases ha : E.ValidateDashboardAlerts dto.OrgId (normalize dto.Dashboard) w with
        ⟨_ | e, d1, w1⟩
      · rcases hb : E.ValidateDashboardBeforeSave dto.OrgId d1 dto.Overwrite w1 with
          ⟨_ | e, d2, w2⟩
        · exact ⟨d1, w1, d2, w2, rfl, hb⟩
        · rw [save_of_build_failed E dto w w2 _ _ _
            (build_beforeSave_failed E dto w w1 w2 e d1 d2 hl ha hb)] at hc
          simp at hc
          rcases hc with rfl | rfl <;> simp [Call.stage] at hstage
      · rw [save_of_build_failed E dto w w1 _ _ _
          (build_alerts_failed E dto w w1 e d1 hl ha)] at hc
        simp at hc
        subst hc
        simp [Call.stage] at hstage
    · rw [save_of_build_failed E dto w w _ _ _ (build_of_localError E dto w e hl)] at hc
      simp at hc

/-- C8, at a concrete input: a folder with parent 5, sent to a guardian that
would deny, is rejected for its parent and the guardian is not consulted. -/
theorem structural_errors_before_permission_witness :
    SaveDashboard (scriptedEnv { allOk with canSave := (false, none) })
        (request 0 "Prod" "abc" true 5) []
      = ⟨none, some Err.ErrDashboardFolderCannotHaveParent, [], []⟩ :=
  ((structural_errors_before_permission (scriptedEnv { allOk with canSave := (false, none) })
    (request 0 "Prod" "abc" true 5) []).1 _ (by decide)).1

/-! ## Errors of the storage and of the alert synchronization (C9, C10) -/

/-- C9: for a save request that passed the local checks and the alert
validation: if the before-save validation returns an error `e`, `SaveDashboard`
returns exactly `e` and no entity, and the before-save validation is the last
call (no guardian, no commit, no alert synchronization); if the before-save
validation and the guardian pass and the commit returns an error `e`,
`SaveDashboard` returns exactly `e` and no entity, and the commit is the last
call (no alert synchronization). -/
theorem storage_errors_propagate {W : Type} (E : Env W) (dto : SaveDashboardDTO) (w w1 : W)
    (d1 : Dashboard)
    (hl : localError E.IsValidShortUid (normalize dto.Dashboard) = none)
    (ha : E.ValidateDashboardAlerts dto.OrgId (normalize dto.Dashboard) w = (none, d1, w1)) :
    (∀ e d w2, E.ValidateDashboardBeforeSave dto.OrgId d1 dto.Overwrite w1 = (some e, d, w2) →
        SaveDashboard E dto w = ⟨none, some e,
          [Call.ValidateDashboardAlerts dto.OrgId (normalize dto.Dashboard),
            Call.ValidateDashboardBeforeSave dto.OrgId d1 dto.Overwrite], w2⟩)
      ∧ (∀ e d2 w2 w3 res w4,
        E.ValidateDashboardBeforeSave dto.OrgId d1 dto.Overwrite w1 = (none, d2, w2) →
        (E.NewDashboardGuardian (guardianDashId d2) dto.OrgId dto.User).CanSave w2
          = ((true, none), w3) →
        E.SaveDashboard (newSaveDashboardCommand dto d2) w3 = (some e, res, w4) →
        SaveDashboard E dto w = ⟨none, some e,
          [Call.ValidateDashboardAlerts dto.OrgId (normalize dto.Dashboard),
            Call.ValidateDashboardBeforeSave dto.OrgId d1 dto.Overwrite,
            Call.CanSave (guardianDashId d2) dto.OrgId dto.User,
            Call.SaveDashboard (newSaveDashboardCommand dto d2)], w4⟩) := by
  refine ⟨?_, ?_⟩
  · intro e d w2 hb
    exact save_of_build_failed E dto w w2 _ _ _
      (build_beforeSave_failed E dto w w1 w2 e d1 d hl ha hb)
  · intro e d2 w2 w3 res w4 hb hg hs
    exact save_commit_failed E dto w w3 w4 _ _ e res
      (build_guardian_granted E dto w w1 w2 w3 d1 d2 hl ha hb hg) hs

/-- C9, at a concrete input: the commit answers `ErrDashboardVersionMismatch`;
the caller receives that very error and the alerts are not synchronized. -/
theorem storage_errors_propagate_witness :
    SaveDashboard (scriptedEnv { allOk with commit := some Err.ErrDashboardVersionMismatch })
        (request 42 "Prod" "abc" false 3) []
      = ⟨none, some Err.ErrDashboardVersionMismatch,
          [Call.ValidateDashboardAlerts 1 (normalize (request 42 "Prod" "abc" false 3).Dashboard),
            Call.ValidateDashboardBeforeSave 1
              (normalize (request 42 "Prod" "abc" false 3).Dashboard) false,
            Call.CanSave 42 1 { UserId := 7, OrgRole := RoleType.ROLE_EDITOR },
            Call.SaveDashboard (newSaveDashboardCommand (request 42 "Prod" "abc" false 3)
              (normalize (request 42 "Prod" "abc" false 3).Dashboard))], []⟩ :=
  (storage_errors_propagate
    (scriptedEnv { allOk with commit := some Err.ErrDashboardVersionMismatch })
    (request 42 "Prod" "abc" false 3) [] []
    (normalize (request 42 "Prod" "abc" false 3).Dashboard) (by decide) rfl).2
    _ _ _ _ _ _ rfl rfl rfl

/-- C10: (1) when the commit succeeded and the alert synchronization then fails
with any error, `SaveDashboard` reports `ErrDashboardFailedToUpdateAlertData`
and no entity, and the failed synchronization is the last call: nothing is
issued after it, so the commit is not undone and the world is the one the
synchronization left.  (2) The service itself produces
`ErrDashboardFailedToUpdateAlertData` only there: in an environment whose
before-save validation, guardian and commit never answer with that error, a
save that fails with it has committed successfully and then failed to
synchronize the alerts. -/
theorem alert_sync_failure {W : Type} (E : Env W) (dto : SaveDashboardDTO) (w : W) :
    (∀ cmd cs w1 res w2 e w3,
        buildSaveDashboardCommand E dto w = ⟨some cmd, none, cs, w1⟩ →
        E.SaveDashboard cmd w1 = (none, res, w2) →
        E.UpdateDashboardAlerts dto.OrgId dto.User.UserId res w2 = (some e, w3) →
        SaveDashboard E dto w = ⟨none, some Err.ErrDashboardFailedToUpdateAlertData,
          cs ++ [Call.SaveDashboard cmd,
            Call.UpdateDashboardAlerts dto.OrgId dto.User.UserId res], w3⟩)
      ∧ ((∀ o d ov w', (E.ValidateDashboardBeforeSave o d ov w').1
            ≠ some Err.ErrDashboardFailedToUpdateAlertData) →
        (∀ a o u w', ((E.NewDashboardGuardian a o u).CanSave w').1.2
            ≠ some Err.ErrDashboardFailedToUpdateAlertData) →
        (∀ cmd w', (E.SaveDashboard cmd w').1 ≠ some Err.ErrDashboardFailedToUpdateAlertData) →
        (SaveDashboard E dto w).err = some Err.ErrDashboardFailedToUpdateAlertData →
        ∃ cmd cs w1 res w2 e w3,
          buildSaveDashboardCommand E dto w = ⟨some cmd, none, cs, w1⟩
            ∧ E.SaveDashboard cmd w1 = (none, res, w2)
            ∧ E.UpdateDashboardAlerts dto.OrgId dto.User.UserId res w2 = (some e, w3)
            ∧ (SaveDashboard E dto w).calls = cs ++ [Call.SaveDashboard cmd,
                Call.UpdateDashboardAlerts dto.OrgId dto.User.UserId res]) := by
  refine ⟨?_, ?_⟩
  · intro cmd cs w1 res w2 e w3 hbuild hs hu
    exact save_sync_failed E dto w w1 w2 w3 cmd cs e res hbuild hs hu
  · intro hvb hgd hcm herr
    rcases hbuild : buildSaveDashboardCommand E dto w with ⟨v, _ | e, cs, w1⟩
    · rcases v with _ | cmd
      · simp [SaveDashboard, hbuild] at herr
      · rcases hs : E.SaveDashboard cmd w1 with ⟨_ | e, res, w2⟩
        · rcases hu : E.UpdateDashboardAlerts dto.OrgId dto.User.UserId res w2 with
            ⟨_ | e, w3⟩
          · rw [save_succeeded E dto w w1 w2 w3 cmd cs res hbuild hs hu] at herr
            simp at herr
          · refine ⟨cmd, cs, w1, res, w2, e, w3, rfl, hs, hu, ?_⟩
            rw [save_sync_failed E dto w w1 w2 w3 cmd cs e res hbuild hs hu]
        · rw [save_commit_failed E dto w w1 w2 cmd cs e res hbuild hs] at herr
          simp only [Option.some.injEq] at herr
          exact absurd (by rw [hs, herr]) (hcm cmd w1)
    · rw [save_of_build_failed E dto w w1 v e cs hbuild] at herr
      simp only [Option.some.injEq] at herr
      subst herr
      exfalso
      rcases hl : localError E.IsValidShortUid (normalize dto.Dashboard) with _ | e
      · rcases ha : E.ValidateDashboardAlerts dto.OrgId (normalize dto.Dashboard) w with
          ⟨_ | e, d1, w1a⟩
        · rcases hb : E.ValidateDashboardBeforeSave dto.OrgId d1 dto.Overwrite w1a with
            ⟨_ | e, d2, w2⟩
          · rcases hg : (E.NewDashboardGuardian (guardianDashId d2) dto.OrgId dto.User).CanSave
              w2 with ⟨⟨b, _ | e⟩, w3⟩
            · cases b
              · rw [build_guardian_denied E dto w w1a w2 w3 d1 d2 hl ha hb hg] at hbuild
                simp at hbuild
              · rw [build_guardian_granted E dto w w1a w2 w3 d1 d2 hl ha hb hg] at hbuild
                simp at hbuild
            · rw [build_guardian_failed E dto w w1a w2 w3 e b d1 d2 hl ha hb hg] at hbuild
              simp only [Run.mk.injEq, Option.some.injEq] at hbuild
              exact hgd (guardianDashId d2) dto.OrgId dto.User w2 (by rw [hg, hbuild.2.1])
          · rw [build_beforeSave_failed E dto w w1a w2 e d1 d2 hl ha hb] at hbuild
            simp only [Run.mk.injEq, Option.some.injEq] at hbuild
            exact hvb dto.OrgId d1 dto.Overwrite w1a (by rw [hb, hbuild.2.1])
        · rw [build_alerts_failed E dto w w1a e d1 hl ha] at hbuild
          simp at hbuild
      · rw [build_of_localError E dto w e hl] at hbuild
        simp only [Run.mk.injEq, Option.some.injEq] at hbuild
        obtain ⟨-, rfl, -, -⟩ := hbuild
        unfold localError at hl
        split_ifs at hl <;> simp at hl

/-- C10, at a concrete input: every stage up to the commit succeeds, the alert
synchronization fails; the save reports the alert error, the committed
dashboard stays in the store and the synchronization is the last call. -/
theorem alert_sync_failure_witness :
    SaveDashboard (scriptedEnv { allOk with sync := some (Err.other "alerting down") })
        (request 0 "Prod" "abc" false 3) []
      = ⟨none, some Err.ErrDashboardFailedToUpdateAlertData,
          [Call.ValidateDashboardAlerts 1 (normalize (request 0 "Prod" "abc" false 3).Dashboard),
            Call.ValidateDashboardBeforeSave 1
              (normalize (request 0 "Prod" "abc" false 3).Dashboard) false,
            Call.CanSave 3 1 { UserId := 7, OrgRole := RoleType.ROLE_EDITOR }]
          ++ [Call.SaveDashboard (newSaveDashboardCommand (request 0 "Prod" "abc" false 3)
              (normalize (request 0 "Prod" "abc" false 3).Dashboard)),
            Call.UpdateDashboardAlerts 1 7
              (some (storedDashboard (newSaveDashboardCommand (request 0 "Prod" "abc" false 3)
                (normalize (request 0 "Prod" "abc" false 3).Dashboard)) 0))],
          [storedDashboard (newSaveDashboardCommand (request 0 "Prod" "abc" false 3)
            (normalize (request 0 "Prod" "abc" false 3).Dashboard)) 0]⟩ :=
  (alert_sync_failure (scriptedEnv { allOk with sync := some (Err.other "alerting down") })
    (request 0 "Prod" "abc" false 3) []).1
    (newSaveDashboardCommand (request 0 "Prod" "abc" false 3)
      (normalize (request 0 "Prod" "abc" false 3).Dashboard))
    _ [] _
    [storedDashboard (newSaveDashboardCommand (request 0 "Prod" "abc" false 3)
      (normalize (request 0 "Prod" "abc" false 3).Dashboard)) 0]
    (Err.other "alerting down") _ rfl rfl rfl

/-! ## The save as a chain of stages -/

/-- `SaveDashboard` ends at the first stage that fails. -/
theorem SaveDashboard_eq_firstFailure {W : Type} (E : Env W) (dto : SaveDashboardDTO) (w : W) :
    SaveDashboard E dto w = firstFailure E dto w := by
  unfold firstFailure
  rcases hl : localError E.IsValidShortUid (normalize dto.Dashboard) with _ | e
  · rcases ha : E.ValidateDashboardAlerts dto.OrgId (normalize dto.Dashboard) w with
      ⟨_ | e, d1, w1⟩
    · have ha' : alertsAnswer E dto w = (none, d1, w1) := ha
      rcases hb : E.ValidateDashboardBeforeSave dto.OrgId d1 dto.Overwrite w1 with
        ⟨_ | e, d2, w2⟩
      · have hb' : beforeSaveAnswer E dto w = (none, d2, w2) := by
          simp only [beforeSaveAnswer, ha', hb]
        rcases hg : (E.NewDashboardGuardian (guardianDashId d2) dto.OrgId dto.User).CanSave w2
          with ⟨⟨b, _ | e⟩, w3⟩
        · have hg' : guardianAnswer E dto w = ((b, none), w3) := by
            simp only [guardianAnswer, hb', hg]
          cases b
          · rw [save_of_build_failed E dto w w3 _ _ _
              (build_guardian_denied E dto w w1 w2 w3 d1 d2 hl ha hb hg)]
            simp [ha', hb', hg', fullCalls]
          · have hbuild := build_guardian_granted E dto w w1 w2 w3 d1 d2 hl ha hb hg
            rcases hs : E.SaveDashboard (newSaveDashboardCommand dto d2) w3 with
              ⟨_ | e, res, w4⟩
            · have hs' : commitAnswer E dto w = (none, res, w4) := by
                simp only [commitAnswer, hb', hg', hs]
              rcases hu : E.UpdateDashboardAlerts dto.OrgId dto.User.UserId res w4 with
                ⟨_ | e, w5⟩
              · have hu' : syncAnswer E dto w = (none, w5) := by
                  simp only [syncAnswer, hs', hu]
                rw [save_succeeded E dto w w3 w4 w5 _ _ res hbuild hs hu]
                simp [ha', hb', hg', hs', hu', fullCalls]
              · have hu' : syncAnswer E dto w = (some e, w5) := by
                  simp only [syncAnswer, hs', hu]
                rw [save_sync_failed E dto w w3 w4 w5 _ _ e res hbuild hs hu]
                simp [ha', hb', hg', hs', hu', fullCalls]
            · have hs' : commitAnswer E dto w = (some e, res, w4) := by
                simp only [commitAnswer, hb', hg', hs]
              rw [save_commit_failed E dto w w3 w4 _ _ e res hbuild hs]
              simp [ha', hb', hg', hs', fullCalls]
        · have hg' : guardianAnswer E dto w = ((b, some e), w3) := by
            simp only [guardianAnswer, hb', hg]
          rw [save_of_build_failed E dto w w3 _ _ _
            (build_guardian_failed E dto w w1 w2 w3 e b d1 d2 hl ha hb hg)]
          simp [ha', hb', hg', fullCalls]
      · have hb' : beforeSaveAnswer E dto w = (some e, d2, w2) := by
          simp only [beforeSaveAnswer, ha', hb]
        rw [save_of_build_failed E dto w w2 _ _ _
          (build_beforeSave_failed E dto w w1 w2 e d1 d2 hl ha hb)]
        simp [ha', hb', fullCalls]
    · have ha' : alertsAnswer E dto w = (some e, d1, w1) := ha
      rw [save_of_build_failed E dto w w1 _ _ _ (build_alerts_failed E dto w w1 e d1 hl ha)]
      simp [ha', fullCalls]
  · rw [save_of_build_failed E dto w w _ _ _ (build_of_localError E dto w e hl)]

/-- `SaveFolderForProvisionedDashboards` is `SaveDashboard` for the provisioning user. -/
theorem SaveFolder_eq_SaveDashboard {W : Type} (E : Env W) (dto : SaveDashboardDTO) (w : W) :
    SaveFolderForProvisionedDashboards E dto w
      = SaveDashboard E { dto with User := provisioningUser } w :=
  rfl

/-- The calls of `buildSaveDashboardCommand` go to the two validations and to
the guardian only. -/
theorem build_calls_stage {W : Type} (E : Env W) (dto : SaveDashboardDTO) (w : W) :
    ∀ c ∈ (buildSaveDashboardCommand E dto w).calls,
      c.stage = Stage.AlertValidation ∨ c.stage = Stage.BeforeSaveValidation
        ∨ c.stage = Stage.Guardian := by
  rcases hl : localError E.IsValidShortUid (normalize dto.Dashboard) with _ | e
  · rcases ha : E.ValidateDashboardAlerts dto.OrgId (normalize dto.Dashboard) w with
      ⟨_ | e, d1, w1⟩
    · rcases hb : E.ValidateDashboardBeforeSave dto.OrgId d1 dto.Overwrite w1 with
        ⟨_ | e, d2, w2⟩
      · rcases hg : (E.NewDashboardGuardian (guardianDashId d2) dto.OrgId dto.User).CanSave w2
          with ⟨⟨b, _ | e⟩, w3⟩
        · cases b
          · rw [build_guardian_denied E dto w w1 w2 w3 d1 d2 hl ha hb hg]
            simp [Call.stage]
          · rw [build_guardian_granted E dto w w1 w2 w3 d1 d2 hl ha hb hg]
            simp [Call.stage]
        · rw [build_guardian_failed E dto w w1 w2 w3 e b d1 d2 hl ha hb hg]
          simp [Call.stage]
      · rw [build_beforeSave_failed E dto w w1 w2 e d1 d2 hl ha hb]
        simp [Call.stage]
    · rw [build_alerts_failed E dto w w1 e d1 hl ha]
      simp [Call.stage]
  · rw [build_of_localError E dto w e hl]
    simp

/-- Reading plain commits as provisioning commits changes no call that is not a commit. -/
theorem map_forProvisioning_of_stage (provisioning : DashboardProvisioning) (cs : List Call)
    (h : ∀ c ∈ cs, c.stage = Stage.AlertValidation ∨ c.stage = Stage.BeforeSaveValidation
      ∨ c.stage = Stage.Guardian) :
    cs.map (Call.forProvisioning provisioning) = cs := by
  induction cs with
  | nil => rfl
  | cons c cs ih =>
    have hc := h c (List.mem_cons_self c cs)
    have hcs := ih (fun c' hc' => h c' (List.mem_cons_of_mem c hc'))
    rw [List.map_cons, hcs]
    cases c <;> simp [Call.stage, Call.forProvisioning] at hc ⊢

/-- `SaveProvisionedDashboard` is `SaveDashboard` for the provisioning user, in
the environment whose commit is the provisioning commit. -/
theorem SaveProvisioned_eq_SaveDashboard {W : Type} (E : Env W) (dto : SaveDashboardDTO)
    (provisioning : DashboardProvisioning) (w : W) :
    SaveProvisionedDashboard E dto provisioning w
      = ⟨(SaveDashboard (E.forProvisioning provisioning)
            { dto with User := provisioningUser } w).val,
          (SaveDashboard (E.forProvisioning provisioning)
            { dto with User := provisioningUser } w).err,
          (SaveDashboard (E.forProvisioning provisioning)
            { dto with User := provisioningUser } w).calls.map
              (Call.forProvisioning provisioning),
          (SaveDashboard (E.forProvisioning provisioning)
            { dto with User := provisioningUser } w).world⟩ := by
  have hbuild : buildSaveDashboardCommand (E.forProvisioning provisioning)
      { dto with User := provisioningUser } w
      = buildSaveDashboardCommand E { dto with User := provisioningUser } w := rfl
  have hcalls := build_calls_stage E { dto with User := provisioningUser } w
  rcases hb : buildSaveDashboardCommand E { dto with User := provisioningUser } w with
    ⟨v, _ | e, cs, w1⟩
  · rw [hb] at hcalls
    rw [hb] at hbuild
    have hmap := map_forProvisioning_of_stage provisioning cs hcalls
    rcases v with _ | cmd
    · simp [SaveProvisionedDashboard, SaveDashboard, hbuild, hb, hmap]
    · have hE : (E.forProvisioning provisioning).SaveDashboard cmd w1
          = E.SaveProvisionedDashboard cmd provisioning w1 := rfl
      rcases hs : E.SaveProvisionedDashboard cmd provisioning w1 with ⟨_ | e, res, w2⟩
      · rw [hs] at hE
        have hU : (E.forProvisioning provisioning).UpdateDashboardAlerts dto.OrgId
            provisioningUser.UserId res w2
            = E.UpdateDashboardAlerts dto.OrgId provisioningUser.UserId res w2 := rfl
        rcases hu : E.UpdateDashboardAlerts dto.OrgId provisioningUser.UserId res w2 with
          ⟨_ | e, w3⟩
        · rw [hu] at hU
          simp [SaveProvisionedDashboard, SaveDashboard, hbuild, hb, hs, hE, updateAlerting, hu,
            hU, hmap, Call.forProvisioning]
        · rw [hu] at hU
          simp [SaveProvisionedDashboard, SaveDashboard, hbuild, hb, hs, hE, updateAlerting, hu,
            hU, hmap, Call.forProvisioning]
      · rw [hs] at hE
        simp [SaveProvisionedDashboard, SaveDashboard, hbuild, hb, hs, hE, hmap,
          Call.forProvisioning]
  · rw [hb] at hcalls
    rw [hb] at hbuild
    simp [SaveProvisionedDashboard, SaveDashboard, hbuild, hb,
      map_forProvisioning_of_stage provisioning cs hcalls]

/-- The result of `SaveDashboard`: no error exactly when every stage succeeds,
then the entity of the commit; no entity together with an error. -/
theorem SaveDashboard_result {W : Type} (E : Env W) (dto : SaveDashboardDTO) (w : W) :
    ((SaveDashboard E dto w).err = none ↔ everyStageSucceeds E dto w)
      ∧ ((SaveDashboard E dto w).err = none →
          (SaveDashboard E dto w).val = (commitAnswer E dto w).2.1)
      ∧ ((SaveDashboard E dto w).err ≠ none → (SaveDashboard E dto w).val = none) := by
  rw [SaveDashboard_eq_firstFailure]
  unfold firstFailure everyStageSucceeds
  rcases localError E.IsValidShortUid (normalize dto.Dashboard) with _ | e
  · rcases (alertsAnswer E dto w).1 with _ | e
    · rcases (beforeSaveAnswer E dto w).1 with _ | e
      · rcases (guardianAnswer E dto w).1 with ⟨b, _ | e⟩
        · cases b
          · simp
          · rcases (commitAnswer E dto w).1 with _ | e
            · rcases (syncAnswer E dto w).1 with _ | e
              · simp
              · simp
            · simp
        · simp
      · simp
    · simp
  · simp

/-! ## The result and the command (C11, C12) -/

/-- C11: the save result is the committed entity or an error, never both.  For
`SaveDashboard`, for `SaveProvisionedDashboard` (whose commit is the
provisioning commit) and for `SaveFolderForProvisionedDashboards` (both run for
the provisioning user): the error is nil exactly when every stage, the alert
synchronization included, succeeded; the entity returned is then exactly the
one the commit produced; and whenever the error is not nil, also after a
successful commit followed by a failed alert synchronization, the entity
returned is nil. -/
theorem save_result {W : Type} (E : Env W) (dto : SaveDashboardDTO)
    (provisioning : DashboardProvisioning) (w : W) :
    (((SaveDashboard E dto w).err = none ↔ everyStageSucceeds E dto w)
        ∧ ((SaveDashboard E dto w).err = none →
            (SaveDashboard E dto w).val = (commitAnswer E dto w).2.1)
        ∧ ((SaveDashboard E dto w).err ≠ none → (SaveDashboard E dto w).val = none))
      ∧ (((SaveProvisionedDashboard E dto provisioning w).err = none ↔
            everyStageSucceeds (E.forProvisioning provisioning)
              { dto with User := provisioningUser } w)
        ∧ ((SaveProvisionedDashboard E dto provisioning w).err = none →
            (SaveProvisionedDashboard E dto provisioning w).val
              = (commitAnswer (E.forProvisioning provisioning)
                  { dto with User := provisioningUser } w).2.1)
        ∧ ((SaveProvisionedDashboard E dto provisioning w).err ≠ none →
            (SaveProvisionedDashboard E dto provisioning w).val = none))
      ∧ (((SaveFolderForProvisionedDashboards E dto w).err = none ↔
            everyStageSucceeds E { dto with User := provisioningUser } w)
        ∧ ((SaveFolderForProvisionedDashboards E dto w).err = none →
            (SaveFolderForProvisionedDashboards E dto w).val
              = (commitAnswer E { dto with User := provisioningUser } w).2.1)
        ∧ ((SaveFolderForProvisionedDashboards E dto w).err ≠ none →
            (SaveFolderForProvisionedDashboards E dto w).val = none)) := by
  refine ⟨SaveDashboard_result E dto w, ?_, ?_⟩
  · rw [SaveProvisioned_eq_SaveDashboard]
    exact SaveDashboard_result (E.forProvisioning provisioning)
      { dto with User := provisioningUser } w
  · rw [SaveFolder_eq_SaveDashboard]
    exact SaveDashboard_result E { dto with User := provisioningUser } w

/-- C11, at concrete inputs: a save whose alert synchronization fails after a
successful commit returns an error and no entity, although the store holds the
committed dashboard; a save in which every stage succeeds returns that
dashboard and no error. -/
theorem save_result_witness :
    ((SaveDashboard (scriptedEnv { allOk with sync := some (Err.other "alerting down") })
          (request 0 "Prod" "abc" false 3) []).val = none
        ∧ (SaveDashboard (scriptedEnv { allOk with sync := some (Err.other "alerting down") })
          (request 0 "Prod" "abc" false 3) []).world.length = 1)
      ∧ (SaveDashboard (scriptedEnv allOk) (request 0 "Prod" "abc" false 3) []).val
          = some (storedDashboard (newSaveDashboardCommand (request 0 "Prod" "abc" false 3)
              (normalize (request 0 "Prod" "abc" false 3).Dashboard)) 0) :=
  ⟨⟨(save_result (scriptedEnv { allOk with sync := some (Err.other "alerting down") })
        (request 0 "Prod" "abc" false 3) provisioningRecord []).1.2.2 (by decide), by decide⟩,
    (save_result (scriptedEnv allOk) (request 0 "Prod" "abc" false 3) provisioningRecord
      []).1.2.1 (by decide)⟩

/-- Reading a body after `Set`: the new value under the key set, the old
binding under any other key. -/
theorem Json.Get_Set (j : Json) (k k' : String) (v : JsonValue) :
    (j.Set k v).Get k' = if k' = k then some v else j.Get k' := by
  obtain ⟨l⟩ := j
  by_cases h : k' = k
  · subst h
    simp [Json.Set, Json.Get]
  · have hk : ¬ k = k' := fun hc => h hc.symm
    simp only [Json.Set, Json.Get, if_neg h]
    rw [List.find?_cons_of_neg _ (by simpa using hk)]
    congr 1
    induction l with
    | nil => rfl
    | cons p l ih =>
      by_cases hp : p.1 = k
      · have hp' : ¬ p.1 = k' := fun hc => h (hc.symm.trans hp)
        rw [List.filter_cons_of_neg (by simpa using hp), ih,
          List.find?_cons_of_neg _ (by simpa using hp')]
      · rw [List.filter_cons_of_pos (by simpa using hp)]
        by_cases hq : p.1 = k'
        · rw [List.find?_cons_of_pos _ (by simpa using hq),
            List.find?_cons_of_pos _ (by simpa using hq)]
        · rw [List.find?_cons_of_neg _ (by simpa using hq),
            List.find?_cons_of_neg _ (by simpa using hq), ih]

/-- Setting keys other than `k` leaves the binding of `k` as it is. -/
theorem Json.Get_SetAll (j : Json) (sets : List (String × JsonValue)) (k : String)
    (h : ∀ p ∈ sets, p.1 ≠ k) : (j.SetAll sets).Get k = j.Get k := by
  induction sets generalizing j with
  | nil => rfl
  | cons p sets ih =>
    have hp : ¬ k = p.1 := fun hc => h p (List.mem_cons_self p sets) hc.symm
    have hrest : ∀ q ∈ sets, q.1 ≠ k := fun q hq => h q (List.mem_cons_of_mem p hq)
    show ((j.Set p.1 p.2).SetAll sets).Get k = j.Get k
    rw [ih (j.Set p.1 p.2) hrest, Json.Get_Set, if_neg hp]

/-- The body of the normalized dashboard holds the trimmed title under "title". -/
theorem normalize_body_title (dash : Dashboard) :
    (normalize dash).Data.Get "title" = some (JsonValue.str (TrimSpace dash.Title)) := by
  have h1 : ("uid" : String) ≠ "title" := by decide
  have h2 : ("title" : String) ≠ "uid" := by decide
  simp [normalize, Dashboard.SetUid, Json.Set, Json.Get, List.find?, List.filter, h1, h2]

/-- C12, as stated, fails: when the before-save validation renames the
dashboard it is given, the request with the title "  Prod  " passes every
stage and the body of the command handed to the commit has the title
"Renamed", not "Prod". -/
theorem command_title_counterexample :
    (SaveDashboard renamingEnv (request 0 "  Prod  " "abc" false 3) []).err = none
      ∧ committedTitles (SaveDashboard renamingEnv (request 0 "  Prod  " "abc" false 3) []).calls
        = [some (JsonValue.str "Renamed")]
      ∧ TrimSpace (request 0 "  Prod  " "abc" false 3).Dashboard.Title = "Prod" := by
  decide

/-- C12, amended: for a save request that reaches the commit (local checks,
validations and guardian passed), the one command handed to the commit is built
from the request and from the dashboard `d2` as the validation handlers left
it: its body is the body of `d2`, its folder id and folder flag are those of
`d2`, its organization id is `dto.OrgId`, its author id is `dto.User.UserId`,
its overwrite flag and message are the request's; the before-save validation
was given `dto.OrgId` and `dto.Overwrite`; the dashboard the service hands to
the first validation has its title trimmed and mirrored under the key "title"
of its body; and when the handlers leave the title field as it is and change
the body only by setting keys other than "title" (the id, the uid, the
version), the body of the command has "title" equal to the request's trimmed
title and to the title field of the dashboard. -/
theorem command_from_request {W : Type} (E : Env W) (dto : SaveDashboardDTO) (w w1 w2 w3 : W)
    (d1 d2 : Dashboard)
    (hl : localError E.IsValidShortUid (normalize dto.Dashboard) = none)
    (ha : E.ValidateDashboardAlerts dto.OrgId (normalize dto.Dashboard) w = (none, d1, w1))
    (hb : E.ValidateDashboardBeforeSave dto.OrgId d1 dto.Overwrite w1 = (none, d2, w2))
    (hg : (E.NewDashboardGuardian (guardianDashId d2) dto.OrgId dto.User).CanSave w2
      = ((true, none), w3)) :
    ∃ cmd : SaveDashboardCommand,
      (SaveDashboard E dto w).calls.filter (fun c => c.stage = Stage.Commit)
          = [Call.SaveDashboard cmd]
        ∧ cmd.Dashboard = d2.Data
        ∧ cmd.FolderId = d2.FolderId
        ∧ cmd.IsFolder = d2.IsFolder
        ∧ cmd.OrgId = dto.OrgId
        ∧ cmd.UserId = dto.User.UserId
        ∧ cmd.Overwrite = dto.Overwrite
        ∧ cmd.Message = dto.Message
        ∧ (SaveDashboard E dto w).calls.filter (fun c => c.stage = Stage.BeforeSaveValidation)
            = [Call.ValidateDashboardBeforeSave dto.OrgId d1 dto.Overwrite]
        ∧ (normalize dto.Dashboard).Title = TrimSpace dto.Dashboard.Title
        ∧ (normalize dto.Dashboard).Data.Get "title"
            = some (JsonValue.str (TrimSpace dto.Dashboard.Title))
        ∧ (d2.Title = (normalize dto.Dashboard).Title →
          (∃ sets : List (String × JsonValue),
            (∀ p ∈ sets, p.1 ≠ "title")
              ∧ d2.Data = (normalize dto.Dashboard).Data.SetAll sets) →
          cmd.Dashboard.Get "title" = some (JsonValue.str (TrimSpace dto.Dashboard.Title))
            ∧ cmd.Dashboard.Get "title" = some (JsonValue.str d2.Title)) := by
  have hbuild := build_guardian_granted E dto w w1 w2 w3 d1 d2 hl ha hb hg
  have hfields : (newSaveDashboardCommand dto d2).Dashboard = d2.Data
      ∧ (newSaveDashboardCommand dto d2).FolderId = d2.FolderId
      ∧ (newSaveDashboardCommand dto d2).IsFolder = d2.IsFolder
      ∧ (newSaveDashboardCommand dto d2).OrgId = dto.OrgId
      ∧ (newSaveDashboardCommand dto d2).UserId = dto.User.UserId
      ∧ (newSaveDashboardCommand dto d2).Overwrite = dto.Overwrite
      ∧ (newSaveDashboardCommand dto d2).Message = dto.Message := by
    unfold newSaveDashboardCommand
    split_ifs <;> simp
  obtain ⟨f1, f2, f3, f4, f5, f6, f7⟩ := hfields
  have htitle : (normalize dto.Dashboard).Title = TrimSpace dto.Dashboard.Title := by
    simp [normalize, Dashboard.SetUid]
  have hcalls : (SaveDashboard E dto w).calls.filter (fun c => c.stage = Stage.Commit)
        = [Call.SaveDashboard (newSaveDashboardCommand dto d2)]
      ∧ (SaveDashboard E dto w).calls.filter (fun c => c.stage = Stage.BeforeSaveValidation)
        = [Call.ValidateDashboardBeforeSave dto.OrgId d1 dto.Overwrite] := by
    rcases hs : E.SaveDashboard (newSaveDashboardCommand dto d2) w3 with ⟨_ | e, res, w4⟩
    · rcases hu : E.UpdateDashboardAlerts dto.OrgId dto.User.UserId res w4 with ⟨_ | e, w5⟩
      · rw [save_succeeded E dto w w3 w4 w5 _ _ res hbuild hs hu]
        simp [Call.stage]
      · rw [save_sync_failed E dto w w3 w4 w5 _ _ e res hbuild hs hu]
        simp [Call.stage]
    · rw [save_commit_failed E dto w w3 w4 _ _ e res hbuild hs]
      simp [Call.stage]
  refine ⟨newSaveDashboardCommand dto d2, hcalls.1, f1, f2, f3, f4, f5, f6, f7, hcalls.2,
    htitle, normalize_body_title dto.Dashboard, ?_⟩
  rintro ht ⟨sets, hkeys, hd⟩
  rw [f1, hd, Json.Get_SetAll _ _ _ hkeys, ht, htitle]
  exact ⟨normalize_body_title dto.Dashboard, normalize_body_title dto.Dashboard⟩

/-- C12 amended, at a concrete input: the title "  Prod  " reaches the commit
as "Prod", in the body of a command for organization 1, author 7 and folder 3. -/
theorem command_from_request_witness :
    ∃ cmd : SaveDashboardCommand,
      (SaveDashboard (scriptedEnv allOk) (request 0 "  Prod  " "abc" false 3) []).calls.filter
          (fun c => c.stage = Stage.Commit) = [Call.SaveDashboard cmd]
        ∧ cmd.Dashboard.Get "title" = some (JsonValue.str "Prod")
        ∧ cmd.OrgId = 1 ∧ cmd.UserId = 7 ∧ cmd.FolderId = 3 ∧ cmd.IsFolder = false := by
  obtain ⟨cmd, h1, -, h3, h4, h5, h6, -, -, -, -, -, h12⟩ :=
    command_from_request (scriptedEnv allOk) (request 0 "  Prod  " "abc" false 3) [] [] [] []
      (normalize (request 0 "  Prod  " "abc" false 3).Dashboard)
      (normalize (request 0 "  Prod  " "abc" false 3).Dashboard) (by decide) rfl rfl rfl
  exact ⟨cmd, h1, (h12 rfl ⟨[], by simp, rfl⟩).1, h5, h6, h3, h4⟩

/-- The calls of a save are an initial segment of the calls of a full run. -/
theorem SaveDashboard_calls_initial {W : Type} (E : Env W) (dto : SaveDashboardDTO) (w : W) :
    (SaveDashboard E dto w).calls <+: fullCalls E dto w := by
  rw [SaveDashboard_eq_firstFailure]
  unfold firstFailure
  rcases localError E.IsValidShortUid (normalize dto.Dashboard) with _ | e
  · rcases (alertsAnswer E dto w).1 with _ | e
    · rcases (beforeSaveAnswer E dto w).1 with _ | e
      · rcases (guardianAnswer E dto w).1 with ⟨b, _ | e⟩
        · cases b
          · exact List.take_prefix 3 (fullCalls E dto w)
          · rcases (commitAnswer E dto w).1 with _ | e
            · rcases (syncAnswer E dto w).1 with _ | e
              · exact List.prefix_refl (fullCalls E dto w)
              · exact List.prefix_refl (fullCalls E dto w)
            · exact List.take_prefix 4 (fullCalls E dto w)
        · cases b <;> exact List.take_prefix 3 (fullCalls E dto w)
      · exact List.take_prefix 2 (fullCalls E dto w)
    · exact List.take_prefix 1 (fullCalls E dto w)
  · exact List.nil_prefix

/-- The stages of the calls of a full run are the five stages in order. -/
theorem fullCalls_stage {W : Type} (E : Env W) (dto : SaveDashboardDTO) (w : W) :
    (fullCalls E dto w).map Call.stage = stageOrder :=
  rfl

/-! ## Order of the stages (C16 - C19) -/

/-- C16, as stated, fails: with a before-save validation that answers
`ErrDashboardNotFound` (the id does not exist), a request with a blank title
fails with `ErrDashboardTitleEmpty` and a folder with parent 5 fails with
`ErrDashboardFolderCannotHaveParent`; the identity error is not returned. -/
theorem stage_order_counterexample :
    (Env.ValidateDashboardBeforeSave
          (scriptedEnv { allOk with beforeSave := some Err.ErrDashboardNotFound })
          1 (normalize (request 123412321 "  " "" false 0).Dashboard) false []).1
        = some Err.ErrDashboardNotFound
      ∧ (SaveDashboard (scriptedEnv { allOk with beforeSave := some Err.ErrDashboardNotFound })
          (request 123412321 "  " "" false 0) []).err = some Err.ErrDashboardTitleEmpty
      ∧ (SaveDashboard (scriptedEnv { allOk with beforeSave := some Err.ErrDashboardNotFound })
          (request 123412321 "Prod" "" true 5) []).err
          = some Err.ErrDashboardFolderCannotHaveParent
      ∧ (SaveDashboard (scriptedEnv { allOk with beforeSave := some Err.ErrDashboardNotFound })
          (request 123412321 "  " "" false 0) []).err ≠ some Err.ErrDashboardNotFound := by
  decide

/-- C16, amended: the stages run in this order: the local checks (title,
folder with parent, reserved folder name, uid format and length), the alert
validation, the before-save validation, the permission gate, the commit, the
alert synchronization.  The error returned is that of the earliest stage that
fails, whatever the later stages would answer: each clause below assumes only
that the earlier stages passed. -/
theorem stage_order {W : Type} (E : Env W) (dto : SaveDashboardDTO) (w : W) :
    (∀ e, localError E.IsValidShortUid (normalize dto.Dashboard) = some e →
        (SaveDashboard E dto w).err = some e)
      ∧ (localError E.IsValidShortUid (normalize dto.Dashboard) = none →
        ((alertsAnswer E dto w).1 ≠ none →
            (SaveDashboard E dto w).err = some Err.ErrDashboardContainsInvalidAlertData)
          ∧ ((alertsAnswer E dto w).1 = none →
            (∀ e, (beforeSaveAnswer E dto w).1 = some e → (SaveDashboard E dto w).err = some e)
              ∧ ((beforeSaveAnswer E dto w).1 = none →
                (∀ b e, (guardianAnswer E dto w).1 = (b, some e) →
                    (SaveDashboard E dto w).err = some e)
                  ∧ ((guardianAnswer E dto w).1 = (false, none) →
                    (SaveDashboard E dto w).err = some Err.ErrDashboardUpdateAccessDenied)
                  ∧ ((guardianAnswer E dto w).1 = (true, none) →
                    (∀ e, (commitAnswer E dto w).1 = some e →
                        (SaveDashboard E dto w).err = some e)
                      ∧ ((commitAnswer E dto w).1 = none →
                        ((syncAnswer E dto w).1 ≠ none →
                            (SaveDashboard E dto w).err
                              = some Err.ErrDashboardFailedToUpdateAlertData)
                          ∧ ((syncAnswer E dto w).1 = none →
                            (SaveDashboard E dto w).err = none)))))) := by
  rw [SaveDashboard_eq_firstFailure]
  unfold firstFailure
  rcases localError E.IsValidShortUid (normalize dto.Dashboard) with _ | e
  · rcases (alertsAnswer E dto w).1 with _ | e
    · rcases (beforeSaveAnswer E dto w).1 with _ | e
      · rcases (guardianAnswer E dto w).1 with ⟨b, _ | e⟩
        · cases b
          · simp
          · rcases (commitAnswer E dto w).1 with _ | e
            · rcases (syncAnswer E dto w).1 with _ | e
              · simp
              · simp
            · simp
        · simp
      · simp
    · simp
  · simp

/-- C16 amended, at a concrete input: blank title and an id the before-save
validation would not find. -/
theorem stage_order_witness :
    (SaveDashboard (scriptedEnv { allOk with beforeSave := some Err.ErrDashboardNotFound })
        (request 123412321 "  " "" false 0) []).err = some Err.ErrDashboardTitleEmpty :=
  (stage_order (scriptedEnv { allOk with beforeSave := some Err.ErrDashboardNotFound })
    (request 123412321 "  " "" false 0) []).1 _ (by decide)

/-- C17: no retries and strict sequencing.  For every call of `SaveDashboard`:
the calls are an initial segment of the five calls of a full run, so their
stages are an initial segment of alert validation, before-save validation,
guardian, commit, alert synchronization, and no collaborator is invoked twice;
a collaborator is invoked only if the local checks passed and every earlier
collaborator succeeded (the commit only after the guardian answered
`(true, nil)`, the alert synchronization only after a commit without error);
and all five are invoked exactly when the first four are invoked and
succeed. -/
theorem strict_sequencing {W : Type} (E : Env W) (dto : SaveDashboardDTO) (w : W) :
    (SaveDashboard E dto w).calls <+: fullCalls E dto w
      ∧ (SaveDashboard E dto w).calls.map Call.stage <+: stageOrder
      ∧ ((SaveDashboard E dto w).calls.map Call.stage).Nodup
      ∧ (Stage.AlertValidation ∈ (SaveDashboard E dto w).calls.map Call.stage →
          localError E.IsValidShortUid (normalize dto.Dashboard) = none)
      ∧ (Stage.BeforeSaveValidation ∈ (SaveDashboard E dto w).calls.map Call.stage →
          localError E.IsValidShortUid (normalize dto.Dashboard) = none
            ∧ (alertsAnswer E dto w).1 = none)
      ∧ (Stage.Guardian ∈ (SaveDashboard E dto w).calls.map Call.stage →
          localError E.IsValidShortUid (normalize dto.Dashboard) = none
            ∧ (alertsAnswer E dto w).1 = none ∧ (beforeSaveAnswer E dto w).1 = none)
      ∧ (Stage.Commit ∈ (SaveDashboard E dto w).calls.map Call.stage →
          localError E.IsValidShortUid (normalize dto.Dashboard) = none
            ∧ (alertsAnswer E dto w).1 = none ∧ (beforeSaveAnswer E dto w).1 = none
            ∧ (guardianAnswer E dto w).1 = (true, none))
      ∧ (Stage.AlertSync ∈ (SaveDashboard E dto w).calls.map Call.stage →
          localError E.IsValidShortUid (normalize dto.Dashboard) = none
            ∧ (alertsAnswer E dto w).1 = none ∧ (beforeSaveAnswer E dto w).1 = none
            ∧ (guardianAnswer E dto w).1 = (true, none) ∧ (commitAnswer E dto w).1 = none)
      ∧ ((SaveDashboard E dto w).calls.map Call.stage = stageOrder ↔
          localError E.IsValidShortUid (normalize dto.Dashboard) = none
            ∧ (alertsAnswer E dto w).1 = none ∧ (beforeSaveAnswer E dto w).1 = none
            ∧ (guardianAnswer E dto w).1 = (true, none) ∧ (commitAnswer E dto w).1 = none) := by
  have hinit := SaveDashboard_calls_initial E dto w
  have hstages : (SaveDashboard E dto w).calls.map Call.stage <+: stageOrder := by
    rw [← fullCalls_stage E dto w]
    exact List.IsPrefix.map Call.stage hinit
  have hnodup : ((SaveDashboard E dto w).calls.map Call.stage).Nodup :=
    List.Nodup.sublist hstages.sublist (by decide)
  refine ⟨hinit, hstages, hnodup, ?_⟩
  rw [SaveDashboard_eq_firstFailure]
  unfold firstFailure
  rcases localError E.IsValidShortUid (normalize dto.Dashboard) with _ | e
  · rcases (alertsAnswer E dto w).1 with _ | e
    · rcases (beforeSaveAnswer E dto w).1 with _ | e
      · rcases (guardianAnswer E dto w).1 with ⟨b, _ | e⟩
        · cases b
          · simp [fullCalls, Call.stage, stageOrder]
          · rcases (commitAnswer E dto w).1 with _ | e
            · rcases (syncAnswer E dto w).1 with _ | e
              · simp [fullCalls, Call.stage, stageOrder]
              · simp [fullCalls, Call.stage, stageOrder]
            · simp [fullCalls, Call.stage, stageOrder]
        · cases b <;> simp [fullCalls, Call.stage, stageOrder]
      · simp [fullCalls, Call.stage, stageOrder]
    · simp [fullCalls, Call.stage, stageOrder]
  · simp [stageOrder]

/-- C17, at concrete inputs: a denied save stops after the guardian; a save in
which the first four collaborators succeed invokes all five, once each. -/
theorem strict_sequencing_witness :
    (SaveDashboard (scriptedEnv { allOk with canSave := (false, none) })
        (request 0 "Prod" "abc" false 3) []).calls.map Call.stage
        = [Stage.AlertValidation, Stage.BeforeSaveValidation, Stage.Guardian]
      ∧ (SaveDashboard (scriptedEnv { allOk with sync := some (Err.other "alerting down") })
        (request 0 "Prod" "abc" false 3) []).calls.map Call.stage = stageOrder :=
  ⟨by decide,
    (strict_sequencing (scriptedEnv { allOk with sync := some (Err.other "alerting down") })
      (request 0 "Prod" "abc" false 3) []).2.2.2.2.2.2.2.2.2 (by decide)⟩

/-- C18: the local checks of `buildSaveDashboardCommand` are exactly the
first-match decision on the trimmed title and the trimmed uid.  When the
decision names an error, `buildSaveDashboardCommand` returns that error without
invoking a collaborator; when it names none, no local error is returned: the
alert validation is invoked.  Consequently a folder with a negative folder id
is not rejected for having a parent, and a dashboard that is not a folder is
rejected neither for a parent nor for the reserved name. -/
theorem local_checks_first_match {W : Type} (E : Env W) (dto : SaveDashboardDTO) (w : W) :
    (∀ e, firstMatchDecision E.IsValidShortUid (TrimSpace dto.Dashboard.Title)
          (TrimSpace dto.Dashboard.Uid) dto.Dashboard.IsFolder dto.Dashboard.FolderId = some e →
        buildSaveDashboardCommand E dto w = ⟨none, some e, [], w⟩)
      ∧ (firstMatchDecision E.IsValidShortUid (TrimSpace dto.Dashboard.Title)
          (TrimSpace dto.Dashboard.Uid) dto.Dashboard.IsFolder dto.Dashboard.FolderId = none →
        (buildSaveDashboardCommand E dto w).calls.head?
          = some (Call.ValidateDashboardAlerts dto.OrgId (normalize dto.Dashboard)))
      ∧ (dto.Dashboard.FolderId < 0 →
        firstMatchDecision E.IsValidShortUid (TrimSpace dto.Dashboard.Title)
          (TrimSpace dto.Dashboard.Uid) dto.Dashboard.IsFolder dto.Dashboard.FolderId
          ≠ some Err.ErrDashboardFolderCannotHaveParent)
      ∧ (dto.Dashboard.IsFolder = false →
        firstMatchDecision E.IsValidShortUid (TrimSpace dto.Dashboard.Title)
            (TrimSpace dto.Dashboard.Uid) dto.Dashboard.IsFolder dto.Dashboard.FolderId
            ≠ some Err.ErrDashboardFolderCannotHaveParent
          ∧ firstMatchDecision E.IsValidShortUid (TrimSpace dto.Dashboard.Title)
            (TrimSpace dto.Dashboard.Uid) dto.Dashboard.IsFolder dto.Dashboard.FolderId
            ≠ some Err.ErrDashboardFolderNameExists) := by
  have hdec : firstMatchDecision E.IsValidShortUid (TrimSpace dto.Dashboard.Title)
      (TrimSpace dto.Dashboard.Uid) dto.Dashboard.IsFolder dto.Dashboard.FolderId
      = localError E.IsValidShortUid (normalize dto.Dashboard) := rfl
  refine ⟨?_, ?_, ?_, ?_⟩
  · intro e he
    exact build_of_localError E dto w e (hdec ▸ he)
  · intro hnone
    have hl : localError E.IsValidShortUid (normalize dto.Dashboard) = none := hdec ▸ hnone
    rcases ha : E.ValidateDashboardAlerts dto.OrgId (normalize dto.Dashboard) w with
      ⟨_ | e, d1, w1⟩
    · rcases hb : E.ValidateDashboardBeforeSave dto.OrgId d1 dto.Overwrite w1 with
        ⟨_ | e, d2, w2⟩
      · rcases hg : (E.NewDashboardGuardian (guardianDashId d2) dto.OrgId dto.User).CanSave w2
          with ⟨⟨b, _ | e⟩, w3⟩
        · cases b
          · rw [build_guardian_denied E dto w w1 w2 w3 d1 d2 hl ha hb hg]
            rfl
          · rw [build_guardian_granted E dto w w1 w2 w3 d1 d2 hl ha hb hg]
            rfl
        · rw [build_guardian_failed E dto w w1 w2 w3 e b d1 d2 hl ha hb hg]
          rfl
      · rw [build_beforeSave_failed E dto w w1 w2 e d1 d2 hl ha hb]
        rfl
    · rw [build_alerts_failed E dto w w1 e d1 hl ha]
      rfl
  · intro hneg
    have hpos : ¬ dto.Dashboard.FolderId > 0 := by omega
    unfold firstMatchDecision
    split_ifs <;> simp_all
  · intro hfolder
    unfold firstMatchDecision
    constructor <;> split_ifs <;> simp_all

/-- C18, at concrete inputs: folder "Prod" with folder id `-1` and dashboard
"General" pass every local check. -/
theorem local_checks_first_match_witness :
    (buildSaveDashboardCommand (scriptedEnv allOk) (request 0 "Prod" "" true (-1)) []).calls.head?
        = some (Call.ValidateDashboardAlerts 1
            (normalize (request 0 "Prod" "" true (-1)).Dashboard))
      ∧ (buildSaveDashboardCommand (scriptedEnv allOk) (request 0 "General" "" false 0)
          []).calls.head?
        = some (Call.ValidateDashboardAlerts 1
            (normalize (request 0 "General" "" false 0).Dashboard)) :=
  ⟨(local_checks_first_match (scriptedEnv allOk) (request 0 "Prod" "" true (-1)) []).2.1
      (by decide),
    (local_checks_first_match (scriptedEnv allOk) (request 0 "General" "" false 0) []).2.1
      (by decide)⟩

/-- C19: for a save request that passes the local checks, if the alert
validation fails with any error, `SaveDashboard` fails with
`ErrDashboardContainsInvalidAlertData`, the error of the validation being
dropped, and the alert validation is the only call: neither the before-save
validation nor the guardian nor the commit is invoked. -/
theorem invalid_alert_data {W : Type} (E : Env W) (dto : SaveDashboardDTO) (w w1 : W) (e : Err)
    (d : Dashboard)
    (hl : localError E.IsValidShortUid (normalize dto.Dashboard) = none)
    (ha : E.ValidateDashboardAlerts dto.OrgId (normalize dto.Dashboard) w = (some e, d, w1)) :
    SaveDashboard E dto w = ⟨none, some Err.ErrDashboardContainsInvalidAlertData,
      [Call.ValidateDashboardAlerts dto.OrgId (normalize dto.Dashboard)], w1⟩ :=
  save_of_build_failed E dto w w1 _ _ _ (build_alerts_failed E dto w w1 e d hl ha)

/-- C19, at a concrete input: the alert validation answers with an error of
its own, and both the before-save validation and the guardian would reject. -/
theorem invalid_alert_data_witness :
    SaveDashboard
        (scriptedEnv
          { allOk with
            alerts := some (Err.other "bad threshold")
            beforeSave := some Err.ErrDashboardNotFound
            canSave := (false, none) })
        (request 42 "Prod" "abc" false 3) []
      = ⟨none, some Err.ErrDashboardContainsInvalidAlertData,
          [Call.ValidateDashboardAlerts 1
            (normalize (request 42 "Prod" "abc" false 3).Dashboard)], []⟩ :=
  invalid_alert_data _ _ _ _ (Err.other "bad threshold")
    (normalize (request 42 "Prod" "abc" false 3).Dashboard) (by decide) rfl

/-- In a full run the guardian and the alert synchronization see the user of
the request, and the command of the commit carries the user's id. -/
theorem fullCalls_user {W : Type} (E : Env W) (dto : SaveDashboardDTO) (w : W) :
    ∀ c ∈ fullCalls E dto w,
      (∀ a o u, c = Call.CanSave a o u → u = dto.User)
        ∧ (∀ cmd, c = Call.SaveDashboard cmd → cmd.UserId = dto.User.UserId)
        ∧ (∀ o u d, c = Call.UpdateDashboardAlerts o u d → u = dto.User.UserId) := by
  have hcmd : ∀ d, (newSaveDashboardCommand dto d).UserId = dto.User.UserId := by
    intro d
    unfold newSaveDashboardCommand
    split_ifs <;> rfl
  intro c hc
  simp only [fullCalls, List.mem_cons, List.mem_singleton, List.not_mem_nil, or_false] at hc
  rcases hc with rfl | rfl | rfl | rfl | rfl
  · simp
  · simp
  · simp
  · simp [hcmd]
  · simp

/-! ## The provisioning saves (C20) -/

/-- C20: the provisioning saves ignore the user of the request.  Replacing
`dto.User` by any user `u` changes neither the calls nor the result of
`SaveProvisionedDashboard` and of `SaveFolderForProvisionedDashboards`; in
both, every guardian is constructed for the user with id 0 and the admin role,
and every command handed to the commit, like every alert synchronization,
carries user id 0; and `SaveFolderForProvisionedDashboards` returns exactly
what `SaveDashboard` returns for the request with `User` replaced by that
user. -/
theorem provisioning_ignores_user {W : Type} (E : Env W) (dto : SaveDashboardDTO)
    (u : SignedInUser) (provisioning : DashboardProvisioning) (w : W) :
    SaveProvisionedDashboard E { dto with User := u } provisioning w
        = SaveProvisionedDashboard E dto provisioning w
      ∧ SaveFolderForProvisionedDashboards E { dto with User := u } w
        = SaveFolderForProvisionedDashboards E dto w
      ∧ (∀ c ∈ (SaveProvisionedDashboard E dto provisioning w).calls,
          (∀ a o usr, c = Call.CanSave a o usr →
              usr = { UserId := 0, OrgRole := RoleType.ROLE_ADMIN })
            ∧ (∀ cmd p, c = Call.SaveProvisionedDashboard cmd p → cmd.UserId = 0)
            ∧ (∀ cmd, c ≠ Call.SaveDashboard cmd)
            ∧ (∀ o usr d, c = Call.UpdateDashboardAlerts o usr d → usr = 0))
      ∧ (∀ c ∈ (SaveFolderForProvisionedDashboards E dto w).calls,
          (∀ a o usr, c = Call.CanSave a o usr →
              usr = { UserId := 0, OrgRole := RoleType.ROLE_ADMIN })
            ∧ (∀ cmd, c = Call.SaveDashboard cmd → cmd.UserId = 0)
            ∧ (∀ o usr d, c = Call.UpdateDashboardAlerts o usr d → usr = 0))
      ∧ SaveFolderForProvisionedDashboards E dto w
        = SaveDashboard E { dto with User := { UserId := 0, OrgRole := RoleType.ROLE_ADMIN } }
            w := by
  refine ⟨rfl, rfl, ?_, ?_, rfl⟩
  · intro c hc
    rw [SaveProvisioned_eq_SaveDashboard] at hc
    simp only [List.mem_map] at hc
    obtain ⟨c0, hc0, rfl⟩ := hc
    have hfull := fullCalls_user (E.forProvisioning provisioning)
      { dto with User := provisioningUser } w c0
      ((SaveDashboard_calls_initial _ _ w).subset hc0)
    obtain ⟨h1, h2, h3⟩ := hfull
    cases c0 with
    | ValidateDashboardAlerts o d => simp [Call.forProvisioning]
    | ValidateDashboardBeforeSave o d ov => simp [Call.forProvisioning]
    | CanSave a o usr =>
      have := h1 a o usr rfl
      simp [Call.forProvisioning, this, provisioningUser]
    | SaveDashboard cmd =>
      have := h2 cmd rfl
      simp [Call.forProvisioning, this, provisioningUser]
    | SaveProvisionedDashboard cmd p =>
      exfalso
      have hmem := (SaveDashboard_calls_initial (E.forProvisioning provisioning)
        { dto with User := provisioningUser } w).subset hc0
      simp [fullCalls] at hmem
    | UpdateDashboardAlerts o usr d =>
      have := h3 o usr d rfl
      simp [Call.forProvisioning, this, provisioningUser]
  · intro c hc
    rw [SaveFolder_eq_SaveDashboard] at hc
    have hfull := fullCalls_user E { dto with User := provisioningUser } w c
      ((SaveDashboard_calls_initial _ _ w).subset hc)
    obtain ⟨h1, h2, h3⟩ := hfull
    exact ⟨fun a o usr h => h1 a o usr h, fun cmd h => h2 cmd h, fun o usr d h => h3 o usr d h⟩

/-- C20, at a concrete input: a provisioned save of a request sent by user 7,
in an environment where every collaborator succeeds, asks the guardian about
the user with id 0 and the admin role. -/
theorem provisioning_ignores_user_witness :
    Call.CanSave 3 1 { UserId := 0, OrgRole := RoleType.ROLE_ADMIN }
        ∈ (SaveProvisionedDashboard (scriptedEnv allOk) (request 0 "Prod" "abc" false 3)
            provisioningRecord []).calls
      ∧ SaveProvisionedDashboard (scriptedEnv allOk)
          { request 0 "Prod" "abc" false 3 with
            User := { UserId := 99, OrgRole := RoleType.ROLE_VIEWER } }
          provisioningRecord []
        = SaveProvisionedDashboard (scriptedEnv allOk) (request 0 "Prod" "abc" false 3)
            provisioningRecord [] :=
  ⟨by decide,
    (provisioning_ignores_user (scriptedEnv allOk) (request 0 "Prod" "abc" false 3)
      { UserId := 99, OrgRole := RoleType.ROLE_VIEWER } provisioningRecord []).1⟩

/-! ## Facts about the modelled storage -/

/-- The dashboard the before-save validation returns for a target: what the
validators read from it, and what `GetDashboardModel` reads from its body. -/
theorem retargeted_fields (dash : Dashboard) (id : Int) (uid : String) :
    (((normalize dash).SetId id).SetUid uid).Id = id
      ∧ (((normalize dash).SetId id).SetUid uid).FolderId = dash.FolderId
      ∧ (((normalize dash).SetId id).SetUid uid).IsFolder = dash.IsFolder
      ∧ (((normalize dash).SetId id).SetUid uid).Data.GetInt "id" = id
      ∧ (((normalize dash).SetId id).SetUid uid).Data.GetString "uid" = uid
      ∧ (((normalize dash).SetId id).SetUid uid).Data.GetString "title" = TrimSpace dash.Title
      ∧ (((normalize dash).SetId id).SetUid uid).Data.GetInt "version"
          = dash.Data.GetInt "version" := by
  have h1 : ¬ ("id" : String) = "uid" := by decide
  have h2 : ¬ ("title" : String) = "uid" := by decide
  have h3 : ¬ ("title" : String) = "id" := by decide
  have h4 : ¬ ("version" : String) = "uid" := by decide
  have h5 : ¬ ("version" : String) = "id" := by decide
  have h6 : ¬ ("version" : String) = "title" := by decide
  refine ⟨rfl, rfl, rfl, ?_, ?_, ?_, ?_⟩
  · simp [Json.GetInt, normalize, Dashboard.SetId, Dashboard.SetUid, Json.Get_Set, h1]
  · simp [Json.GetString, normalize, Dashboard.SetId, Dashboard.SetUid, Json.Get_Set]
  · simp [Json.GetString, normalize, Dashboard.SetId, Dashboard.SetUid, Json.Get_Set, h2, h3]
  · simp [Json.GetInt, normalize, Dashboard.SetId, Dashboard.SetUid, Json.Get_Set, h4, h5, h6]

/-- The validators read the id, the uid, the title, the version, the folder id
and the folder flag of a dashboard, nothing else. -/
theorem resolve_congr (lower : String → String) (store : List Dashboard) (org : Int)
    (d d' : Dashboard) (overwrite : Bool)
    (hid : d.Id = d'.Id) (huid : d.Uid = d'.Uid) (htitle : d.Title = d'.Title)
    (hversion : d.Version = d'.Version) (hfolder : d.FolderId = d'.FolderId)
    (hkind : d.IsFolder = d'.IsFolder) :
    resolve lower store org d overwrite = resolve lower store org d' overwrite := by
  simp only [resolve, identityResolver, folderResolver, typeValidator, uidValidator,
    uniquenessValidator, concurrencyValidator, hid, huid, htitle, hversion, hfolder, hkind]

/-- The validators accept a direct update of the target `t`. -/
theorem resolve_update (lower : String → String) (store : List Dashboard) (org : Int)
    (d t : Dashboard) (overwrite : Bool)
    (hi : identityResolver store org d = Resolution.target (some t))
    (hf : folderResolver store org d = none)
    (hk : t.IsFolder = d.IsFolder)
    (hq : uidValidator store org d (some t) = none)
    (hu : findByTitleInScope lower store org d.FolderId d.IsFolder d.Title (some t.Id) = none)
    (hc : findByTitleInScope lower store org d.FolderId (!d.IsFolder) d.Title none = none)
    (hv : concurrencyValidator d overwrite (some t) = none) :
    resolve lower store org d overwrite = Resolution.target (some t) := by
  simp [resolve, hi, hf, typeValidator, hk, hq, uniquenessValidator, hu, hc, hv]

/-- The validators fail a direct update of the target `t` at the version check. -/
theorem resolve_version_mismatch (lower : String → String) (store : List Dashboard) (org : Int)
    (d t : Dashboard) (overwrite : Bool) (e : Err)
    (hi : identityResolver store org d = Resolution.target (some t))
    (hf : folderResolver store org d = none)
    (hk : t.IsFolder = d.IsFolder)
    (hq : uidValidator store org d (some t) = none)
    (hu : findByTitleInScope lower store org d.FolderId d.IsFolder d.Title (some t.Id) = none)
    (hc : findByTitleInScope lower store org d.FolderId (!d.IsFolder) d.Title none = none)
    (hv : concurrencyValidator d overwrite (some t) = some e) :
    resolve lower store org d overwrite = Resolution.failed e := by
  simp [resolve, hi, hf, typeValidator, hk, hq, uniquenessValidator, hu, hc, hv]

/-- The validators fail an update whose folder flag differs from the target's. -/
theorem resolve_type_mismatch (lower : String → String) (store : List Dashboard) (org : Int)
    (d t : Dashboard) (overwrite : Bool)
    (hi : identityResolver store org d = Resolution.target (some t))
    (hf : folderResolver store org d = none)
    (hk : t.IsFolder ≠ d.IsFolder) :
    resolve lower store org d overwrite = Resolution.failed Err.ErrDashboardTypeMismatch := by
  simp [resolve, hi, hf, typeValidator, hk]

/-- Without the overwrite flag the validators fail a creation whose title is
taken in its scope. -/
theorem resolve_same_name (lower : String → String) (store : List Dashboard) (org : Int)
    (d c : Dashboard)
    (hi : identityResolver store org d = Resolution.target none)
    (hf : folderResolver store org d = none)
    (hu : findByTitleInScope lower store org d.FolderId d.IsFolder d.Title none = some c) :
    resolve lower store org d false
      = Resolution.failed Err.ErrDashboardWithSameNameInFolderExists := by
  simp [resolve, hi, hf, typeValidator, uidValidator, uniquenessValidator, hu]

/-- With the overwrite flag the validators turn a creation whose title is taken
in its scope into an update of the entity that has the title. -/
theorem resolve_retarget (lower : String → String) (store : List Dashboard) (org : Int)
    (d c : Dashboard)
    (hi : identityResolver store org d = Resolution.target none)
    (hf : folderResolver store org d = none)
    (hu : findByTitleInScope lower store org d.FolderId d.IsFolder d.Title none = some c)
    (hc : findByTitleInScope lower store org d.FolderId (!d.IsFolder) d.Title none = none)
    (hv : concurrencyValidator d true (some c) = none) :
    resolve lower store org d true = Resolution.target (some c) := by
  simp [resolve, hi, hf, typeValidator, uidValidator, uniquenessValidator, hu, hc, hv]

/-- A dashboard that carries the id of a stored entity resolves to it. -/
theorem identityResolver_of_id (store : List Dashboard) (org : Int) (d t : Dashboard)
    (hid : d.Id = t.Id) (hne : t.Id ≠ 0) (hfind : findById store org t.Id = some t) :
    identityResolver store org d = Resolution.target (some t) := by
  have hne' : d.Id ≠ 0 := by rw [hid]; exact hne
  unfold identityResolver
  rw [if_pos hne', hid, hfind]

/-- In the modelled storage, a save whose before-save validation fails returns
the error of the validators after the two validations; the store is untouched. -/
theorem storage_save_rejected (lower : String → String)
    (canSave : Int → Int → SignedInUser → Bool) (sync : Option Err)
    (dto : SaveDashboardDTO) (store : List Dashboard) (e : Err)
    (hl : localError IsValidShortUid (normalize dto.Dashboard) = none)
    (hr : resolve lower store dto.OrgId (normalize dto.Dashboard) dto.Overwrite
      = Resolution.failed e) :
    SaveDashboard (storageEnv lower canSave none sync) dto store
      = ⟨none, some e, [Call.ValidateDashboardAlerts dto.OrgId (normalize dto.Dashboard),
          Call.ValidateDashboardBeforeSave dto.OrgId (normalize dto.Dashboard) dto.Overwrite],
          store⟩ := by
  refine save_of_build_failed _ dto store store _ _ _
    (build_beforeSave_failed (storageEnv lower canSave none sync) dto store store store e
      (normalize dto.Dashboard) (normalize dto.Dashboard) hl rfl ?_)
  simp [storageEnv, validateDashboardBeforeSave, hr]

/-- In the modelled storage, a save that the validators resolve to the target
`t`, that the guardian permits and that the commit validates again to `t`,
succeeds: it returns the entity of `t` with the version incremented by 1, which
replaces `t` in the store, and the guardian was consulted about `t`. -/
theorem storage_save_updates (lower : String → String)
    (canSave : Int → Int → SignedInUser → Bool)
    (dto : SaveDashboardDTO) (store : List Dashboard) (t : Dashboard)
    (hl : localError IsValidShortUid (normalize dto.Dashboard) = none)
    (hr : resolve lower store dto.OrgId (normalize dto.Dashboard) dto.Overwrite
      = Resolution.target (some t))
    (hne : t.Id ≠ 0)
    (hg : canSave t.Id dto.OrgId dto.User = true)
    (hre : resolve lower store dto.OrgId
        (newSaveDashboardCommand dto (((normalize dto.Dashboard).SetId t.Id).SetUid
          (resolvedUid store dto.OrgId (normalize dto.Dashboard) t))).GetDashboardModel
        dto.Overwrite = Resolution.target (some t)) :
    ∃ entity : Dashboard,
      (SaveDashboard (storageEnv lower canSave none none) dto store).val = some entity
        ∧ (SaveDashboard (storageEnv lower canSave none none) dto store).err = none
        ∧ entity.Id = t.Id ∧ entity.OrgId = t.OrgId ∧ entity.IsFolder = t.IsFolder
        ∧ entity.Version = t.Version + 1
        ∧ entity.Uid = (if resolvedUid store dto.OrgId (normalize dto.Dashboard) t = ""
            then t.Uid else resolvedUid store dto.OrgId (normalize dto.Dashboard) t)
        ∧ (SaveDashboard (storageEnv lower canSave none none) dto store).world
            = store.map (fun e => if e.OrgId = t.OrgId ∧ e.Id = t.Id then entity else e)
        ∧ Call.CanSave t.Id dto.OrgId dto.User
            ∈ (SaveDashboard (storageEnv lower canSave none none) dto store).calls := by
  obtain ⟨f1, f2, f3, f4, f5, f6, f7⟩ := retargeted_fields dto.Dashboard t.Id
    (resolvedUid store dto.OrgId (normalize dto.Dashboard) t)
  have hb : (storageEnv lower canSave none none).ValidateDashboardBeforeSave dto.OrgId
      (normalize dto.Dashboard) dto.Overwrite store
      = (none, ((normalize dto.Dashboard).SetId t.Id).SetUid
          (resolvedUid store dto.OrgId (normalize dto.Dashboard) t), store) := by
    simp [storageEnv, validateDashboardBeforeSave, hr]
  have hgid : guardianDashId (((normalize dto.Dashboard).SetId t.Id).SetUid
      (resolvedUid store dto.OrgId (normalize dto.Dashboard) t)) = t.Id := by
    simp [guardianDashId, f1, hne]
  have hgd : ((storageEnv lower canSave none none).NewDashboardGuardian
      (guardianDashId (((normalize dto.Dashboard).SetId t.Id).SetUid
        (resolvedUid store dto.OrgId (normalize dto.Dashboard) t))) dto.OrgId
      dto.User).CanSave store = ((true, none), store) := by
    rw [hgid]
    simp [storageEnv, hg]
  have hbuild := build_guardian_granted (storageEnv lower canSave none none) dto store store store
    store (normalize dto.Dashboard) _ hl rfl hb hgd
  have horg : ∀ d, (newSaveDashboardCommand dto d).OrgId = dto.OrgId
      ∧ (newSaveDashboardCommand dto d).Overwrite = dto.Overwrite := by
    intro d
    unfold newSaveDashboardCommand
    split_ifs <;> simp
  have hs : (storageEnv lower canSave none none).SaveDashboard
      (newSaveDashboardCommand dto (((normalize dto.Dashboard).SetId t.Id).SetUid
        (resolvedUid store dto.OrgId (normalize dto.Dashboard) t))) store
      = (none,
          some (updatedEntity t (newSaveDashboardCommand dto (((normalize dto.Dashboard).SetId
            t.Id).SetUid (resolvedUid store dto.OrgId (normalize dto.Dashboard) t)))),
          store.map (fun e => if e.OrgId = t.OrgId ∧ e.Id = t.Id then
            updatedEntity t (newSaveDashboardCommand dto (((normalize dto.Dashboard).SetId
              t.Id).SetUid (resolvedUid store dto.OrgId (normalize dto.Dashboard) t)))
            else e)) := by
    simp only [storageEnv, commitDashboard, (horg _).1, (horg _).2, hre]
  have hcommit := save_succeeded (storageEnv lower canSave none none) dto store store _ _ _ _ _
    hbuild hs rfl
  have huid : (newSaveDashboardCommand dto (((normalize dto.Dashboard).SetId t.Id).SetUid
      (resolvedUid store dto.OrgId (normalize dto.Dashboard) t))).GetDashboardModel.Uid
      = resolvedUid store dto.OrgId (normalize dto.Dashboard) t := by
    have hd : ∀ d, (newSaveDashboardCommand dto d).Dashboard = d.Data := by
      intro d
      unfold newSaveDashboardCommand
      split_ifs <;> rfl
    simp only [SaveDashboardCommand.GetDashboardModel, hd, f5]
  refine ⟨_, congrArg Run.val hcommit, congrArg Run.err hcommit, rfl, rfl, rfl, rfl, ?_,
    congrArg Run.world hcommit, ?_⟩
  · simp only [updatedEntity, huid]
  · rw [congrArg Run.calls hcommit, hgid]
    simp

/-- At commit time the validators see the dashboard the before-save validation
returned, provided the body of the request agrees with its version field. -/
theorem commit_model_resolve (lower : String → String) (store : List Dashboard)
    (dto : SaveDashboardDTO) (id : Int) (uid : String) (overwrite : Bool)
    (hsync : dto.Dashboard.Data.GetInt "version" = dto.Dashboard.Version) :
    resolve lower store dto.OrgId
        (newSaveDashboardCommand dto
          (((normalize dto.Dashboard).SetId id).SetUid uid)).GetDashboardModel overwrite
      = resolve lower store dto.OrgId (((normalize dto.Dashboard).SetId id).SetUid uid)
          overwrite := by
  obtain ⟨f1, f2, f3, f4, f5, f6, f7⟩ := retargeted_fields dto.Dashboard id uid
  have hcmd : ∀ d, (newSaveDashboardCommand dto d).Dashboard = d.Data
      ∧ (newSaveDashboardCommand dto d).FolderId = d.FolderId
      ∧ (newSaveDashboardCommand dto d).IsFolder = d.IsFolder := by
    intro d
    unfold newSaveDashboardCommand
    split_ifs <;> simp
  apply resolve_congr
  · simp only [SaveDashboardCommand.GetDashboardModel, (hcmd _).1, f4, f1]
  · simp only [SaveDashboardCommand.GetDashboardModel, (hcmd _).1, f5]
    rfl
  · simp only [SaveDashboardCommand.GetDashboardModel, (hcmd _).1, f6]
    rfl
  · simp only [SaveDashboardCommand.GetDashboardModel, (hcmd _).1, f7, hsync]
    rfl
  · simp only [SaveDashboardCommand.GetDashboardModel, (hcmd _).2.1]
  · simp only [SaveDashboardCommand.GetDashboardModel, (hcmd _).2.2]

/-- After an update the id of the target finds the updated entity. -/
theorem findById_map_update (store : List Dashboard) (org : Int) (t entity : Dashboard)
    (hfind : findById store org t.Id = some t) (hid : entity.Id = t.Id)
    (horg : entity.OrgId = t.OrgId) :
    findById (store.map (fun e => if e.OrgId = t.OrgId ∧ e.Id = t.Id then entity else e)) org
        t.Id = some entity := by
  have ht : t.OrgId = org ∧ t.Id = t.Id := by
    have := List.find?_some hfind
    simpa using this
  unfold findById at hfind ⊢
  rw [List.find?_map]
  have hcomp : ((fun e : Dashboard => decide (e.OrgId = org ∧ e.Id = t.Id)) ∘
      fun e => if e.OrgId = t.OrgId ∧ e.Id = t.Id then entity else e)
      = fun e : Dashboard => decide (e.OrgId = org ∧ e.Id = t.Id) := by
    funext e
    simp only [Function.comp]
    by_cases he : e.OrgId = t.OrgId ∧ e.Id = t.Id
    · simp only [if_pos he]
      simp [hid, horg, ht.1, he.1, he.2]
    · simp only [if_neg he]
  rw [hcomp, hfind]
  simp [ht.1]

/-- The target the identity resolver finds is an entity of the store, in the
organization of the request. -/
theorem identityResolver_mem (store : List Dashboard) (org : Int) (d t : Dashboard)
    (hi : identityResolver store org d = Resolution.target (some t)) :
    t ∈ store ∧ t.OrgId = org := by
  unfold identityResolver at hi
  split_ifs at hi with h1 h2
  · rcases hfind : findById store org d.Id with _ | e
    · rw [hfind] at hi
      simp at hi
    · rw [hfind] at hi
      simp only [Resolution.target.injEq, Option.some.injEq] at hi
      subst hi
      have hp := List.find?_some hfind
      simp only [decide_eq_true_eq] at hp
      exact ⟨List.mem_of_find?_eq_some hfind, hp.1⟩
  · simp only [Resolution.target.injEq] at hi
    have hp := List.find?_some hi
    simp only [decide_eq_true_eq] at hp
    exact ⟨List.mem_of_find?_eq_some hi, hp.1⟩
  · simp at hi

/-- A check of the uid against the store depends on the uid only. -/
theorem uidValidator_retargeted (store : List Dashboard) (org : Int) (d t : Dashboard)
    (id : Int) (hfuid : findByUid store org t.Uid = some t)
    (h : uidValidator store org d (some t) = none
      ∨ identityResolver store org d ≠ Resolution.target (some t)) :
    uidValidator store org ((d.SetId id).SetUid (resolvedUid store org d t)) (some t)
      = none := by
  have hown : ∀ d' : Dashboard, d'.Uid = t.Uid → uidValidator store org d' (some t) = none := by
    intro d' hd'
    simp [uidValidator, hd', hfuid]
  have hsame : ∀ d' : Dashboard, d'.Uid = d.Uid →
      uidValidator store org d' (some t) = uidValidator store org d (some t) := by
    intro d' hd'
    simp [uidValidator, hd']
  by_cases hi : identityResolver store org d = Resolution.target (some t)
  · rcases h with h | h
    · by_cases hu : d.Uid = ""
      · exact hown _ (by simp [Dashboard.SetUid, resolvedUid, hi, hu])
      · rw [hsame _ (by simp [Dashboard.SetUid, resolvedUid, hi, hu])]
        exact h
    · exact absurd hi h
  · exact hown _ (by simp [Dashboard.SetUid, resolvedUid, hi])

/-- The modelled storage agrees with the integration test on an update by id
that carries the uid of another stored dashboard: it is rejected with
`ErrDashboardWithSameUIDExists`, also with the overwrite flag; with a uid no
entity holds, the update goes through and the entity takes the new uid. -/
theorem storage_same_uid_rejected :
    (SaveDashboard (storageEnv ToLower permitAll none none)
        (requestFor (dashboardModel 2 "gen" "Saved dash in folder" 0 false 0) true)
        savedStore).err = some Err.ErrDashboardWithSameUIDExists
      ∧ ((SaveDashboard (storageEnv ToLower permitAll none none)
        (requestFor (dashboardModel 2 "new-uid" "Saved dash in folder" 0 false 0) true)
        savedStore).val.map (fun e => (e.Id, e.Uid, e.Version))) = some (2, "new-uid", 2) := by
  decide

/-- The modelled storage agrees with further scenarios of the integration
test: an id no entity has, and an id of another organization, give
`ErrDashboardNotFound`; a folder no entity has gives `ErrFolderNotFound`; a
dashboard titled like a folder beside it and a folder titled like a dashboard
beside it give the two cross-kind errors, also with the overwrite flag; a
dashboard with a fresh title is created with version 1. -/
theorem storage_test_scenarios :
    (SaveDashboard (storageEnv ToLower permitAll none none)
        (requestFor (dashboardModel 123412321 "" "Expect error" 0 false 0) false)
        savedStore).err = some Err.ErrDashboardNotFound
      ∧ (SaveDashboard (storageEnv ToLower permitAll none none)
        { requestFor (dashboardModel 2 "" "Expect error" 0 false 0) false with OrgId := 2 }
        savedStore).err = some Err.ErrDashboardNotFound
      ∧ (SaveDashboard (storageEnv ToLower permitAll none none)
        (requestFor (dashboardModel 0 "" "Expect error" 0 false 123412321) false)
        savedStore).err = some Err.ErrFolderNotFound
      ∧ (SaveDashboard (storageEnv ToLower permitAll none none)
        (requestFor (dashboardModel 0 "" "Saved folder" 0 false 0) true)
        savedStore).err = some Err.ErrDashboardWithSameNameAsFolder
      ∧ (SaveDashboard (storageEnv ToLower permitAll none none)
        (requestFor (dashboardModel 0 "" "Saved dashboard in general folder" 0 true 0) true)
        savedStore).err = some Err.ErrDashboardFolderWithSameNameAsDashboard
      ∧ ((SaveDashboard (storageEnv ToLower permitAll none none)
        (requestFor (dashboardModel 0 "" "Dash without id and uid" 0 false 0) false)
        savedStore).val.map (fun e => (e.Id, e.Version, e.FolderId))) = some (4, 1, 0) := by
  decide

/-! ## Claims about the modelled storage (C13 - C15) -/

/-- C13, as stated, fails: a request that resolves by id to the stored
dashboard 3 and supplies no version fails with `ErrDashboardTitleEmpty` when
its title is blank; and with the overwrite flag and the permission granted it
fails with `ErrDashboardFailedToUpdateAlertData` when the alert
synchronization fails. -/
theorem optimistic_concurrency_counterexample :
    identityResolver savedStore 1 (normalize (dashboardModel 3 "" "  " 0 false 0))
        = Resolution.target (some (dashboardModel 3 "gen" "Saved dashboard in general folder"
            1 false 0))
      ∧ (SaveDashboard (storageEnv ToLower permitAll none none)
          (requestFor (dashboardModel 3 "" "  " 0 false 0) false) savedStore).err
        = some Err.ErrDashboardTitleEmpty
      ∧ (SaveDashboard (storageEnv ToLower permitAll none (some (Err.other "alerting down")))
          (requestFor (dashboardModel 3 "" "test dash 23" 0 false 0) true) savedStore).err
        = some Err.ErrDashboardFailedToUpdateAlertData := by
  decide

/-- C13, amended.  In the storage modelled from the spec, for every case
folding `lower` of its title comparison, with the alert validation and the
alert synchronization succeeding: take a save request that passes the local
checks and resolves, by id or by uid, to an existing entity `t` of its
organization and of its kind, whose folder is 0 or exists, whose uid, if it
names one, is held by no other entity of the organization, and whose title is
taken by no other entity of its scope, of either kind.  If it supplies no
expected version and `Overwrite` is false, `SaveDashboard` fails with
`ErrDashboardVersionMismatch` and the store is untouched.  If the stored
entities have non-zero ids and are each the entity that their id and their uid
find in their organization (ids and uids are unique), the body of the request
agrees with its version field and the guardian permits the save of `t`, then
the save succeeds both when the request supplies no version and `Overwrite` is
true and when the request supplies the current version (whatever `Overwrite`
is): it returns the entity of `t`, whose version is greater than before, and
this entity is the one stored under the id of `t`. -/
theorem optimistic_concurrency (lower : String → String)
    (canSave : Int → Int → SignedInUser → Bool)
    (dto : SaveDashboardDTO) (store : List Dashboard) (t : Dashboard)
    (hl : localError IsValidShortUid (normalize dto.Dashboard) = none)
    (hi : identityResolver store dto.OrgId (normalize dto.Dashboard)
      = Resolution.target (some t))
    (hf : folderResolver store dto.OrgId (normalize dto.Dashboard) = none)
    (hk : t.IsFolder = dto.Dashboard.IsFolder)
    (hq : uidValidator store dto.OrgId (normalize dto.Dashboard) (some t) = none)
    (hu : findByTitleInScope lower store dto.OrgId dto.Dashboard.FolderId
      dto.Dashboard.IsFolder (TrimSpace dto.Dashboard.Title) (some t.Id) = none)
    (hc : findByTitleInScope lower store dto.OrgId dto.Dashboard.FolderId
      (!dto.Dashboard.IsFolder) (TrimSpace dto.Dashboard.Title) none = none) :
    (dto.Dashboard.Version = 0 → dto.Overwrite = false →
        SaveDashboard (storageEnv lower canSave none none) dto store
          = ⟨none, some Err.ErrDashboardVersionMismatch,
              [Call.ValidateDashboardAlerts dto.OrgId (normalize dto.Dashboard),
                Call.ValidateDashboardBeforeSave dto.OrgId (normalize dto.Dashboard)
                  dto.Overwrite], store⟩)
      ∧ ((∀ e ∈ store, e.Id ≠ 0 ∧ findById store e.OrgId e.Id = some e
            ∧ findByUid store e.OrgId e.Uid = some e) →
        dto.Dashboard.Data.GetInt "version" = dto.Dashboard.Version →
        canSave t.Id dto.OrgId dto.User = true →
        ((dto.Dashboard.Version = 0 ∧ dto.Overwrite = true)
          ∨ (dto.Dashboard.Version ≠ 0 ∧ dto.Dashboard.Version = t.Version)) →
        ∃ entity : Dashboard,
          (SaveDashboard (storageEnv lower canSave none none) dto store).val = some entity
            ∧ (SaveDashboard (storageEnv lower canSave none none) dto store).err = none
            ∧ entity.Id = t.Id
            ∧ t.Version < entity.Version
            ∧ findById (SaveDashboard (storageEnv lower canSave none none) dto store).world
                dto.OrgId t.Id = some entity) := by
  refine ⟨?_, ?_⟩
  · intro hv0 how
    have hv : concurrencyValidator (normalize dto.Dashboard) dto.Overwrite (some t)
        = some Err.ErrDashboardVersionMismatch := by
      have : (normalize dto.Dashboard).Version = 0 := hv0
      simp [concurrencyValidator, this, how]
    exact storage_save_rejected lower canSave none dto store _ hl
      (resolve_version_mismatch lower store dto.OrgId _ t _ _ hi hf hk hq hu hc hv)
  · intro hstore hsync hg hversion
    obtain ⟨hmem, horg⟩ := identityResolver_mem store dto.OrgId _ t hi
    obtain ⟨hne, hfind, hfuid⟩ := hstore t hmem
    rw [horg] at hfind hfuid
    have hq2 : uidValidator store dto.OrgId (((normalize dto.Dashboard).SetId t.Id).SetUid
        (resolvedUid store dto.OrgId (normalize dto.Dashboard) t)) (some t) = none :=
      uidValidator_retargeted store dto.OrgId _ t t.Id hfuid (Or.inl hq)
    have hv : ∀ d : Dashboard, d.Version = dto.Dashboard.Version →
        concurrencyValidator d dto.Overwrite (some t) = none := by
      intro d hd
      rcases hversion with ⟨h0, how⟩ | ⟨hn, hcur⟩
      · simp [concurrencyValidator, hd, h0, how]
      · have hn' : ¬ t.Version = 0 := fun h0 => hn (hcur.trans h0)
        simp [concurrencyValidator, hd, hcur, hn']
    have hr := resolve_update lower store dto.OrgId _ t dto.Overwrite hi hf hk hq hu hc
      (hv _ rfl)
    have hre := commit_model_resolve lower store dto t.Id
      (resolvedUid store dto.OrgId (normalize dto.Dashboard) t) dto.Overwrite hsync
    rw [resolve_update lower store dto.OrgId (((normalize dto.Dashboard).SetId t.Id).SetUid
      (resolvedUid store dto.OrgId (normalize dto.Dashboard) t)) t dto.Overwrite
      (identityResolver_of_id store dto.OrgId _ t rfl hne hfind) hf hk hq2 hu hc
      (hv _ rfl)] at hre
    obtain ⟨entity, h1, h2, h3, h4, -, h6, -, h8, -⟩ :=
      storage_save_updates lower canSave dto store t hl hr hne hg hre
    refine ⟨entity, h1, h2, h3, by omega, ?_⟩
    rw [h8]
    exact findById_map_update store dto.OrgId t entity hfind h3 h4

/-- C13 amended, at concrete inputs, in the store of the integration test: an
update of dashboard 3 by id without version is rejected without the overwrite
flag and goes through with it. -/
theorem optimistic_concurrency_witness :
    SaveDashboard (storageEnv ToLower permitAll none none)
        (requestFor (dashboardModel 3 "" "test dash 23" 0 false 1) false) savedStore
        = ⟨none, some Err.ErrDashboardVersionMismatch,
            [Call.ValidateDashboardAlerts 1
              (normalize (dashboardModel 3 "" "test dash 23" 0 false 1)),
            Call.ValidateDashboardBeforeSave 1
              (normalize (dashboardModel 3 "" "test dash 23" 0 false 1)) false], savedStore⟩
      ∧ ∃ entity : Dashboard,
        (SaveDashboard (storageEnv ToLower permitAll none none)
            (requestFor (dashboardModel 3 "" "test dash 23" 0 false 1) true) savedStore).val
            = some entity
          ∧ (SaveDashboard (storageEnv ToLower permitAll none none)
            (requestFor (dashboardModel 3 "" "test dash 23" 0 false 1) true) savedStore).err
            = none
          ∧ entity.Id = 3
          ∧ 1 < entity.Version
          ∧ findById (SaveDashboard (storageEnv ToLower permitAll none none)
              (requestFor (dashboardModel 3 "" "test dash 23" 0 false 1) true)
              savedStore).world 1 3 = some entity :=
  ⟨(optimistic_concurrency ToLower permitAll
      (requestFor (dashboardModel 3 "" "test dash 23" 0 false 1) false) savedStore
      (dashboardModel 3 "gen" "Saved dashboard in general folder" 1 false 0)
      (by decide) (by decide) (by decide) (by decide) (by decide) (by decide)
      (by decide)).1 rfl rfl,
    (optimistic_concurrency ToLower permitAll
      (requestFor (dashboardModel 3 "" "test dash 23" 0 false 1) true) savedStore
      (dashboardModel 3 "gen" "Saved dashboard in general folder" 1 false 0)
      (by decide) (by decide) (by decide) (by decide) (by decide) (by decide)
      (by decide)).2 (by decide) (by decide) rfl (Or.inl ⟨rfl, rfl⟩)⟩

/-- C14, as stated, fails: in the store of the integration test, a request
without id and uid that takes the title of the stored dashboard 2 in folder 1,
with the overwrite flag and the permission granted, fails with
`ErrDashboardFailedToUpdateAlertData` when the alert synchronization fails,
and with `ErrDashboardContainsInvalidAlertData`, not with
`ErrDashboardWithSameNameInFolderExists`, without the overwrite flag when the
alert validation fails. -/
theorem overwrite_by_title_counterexample :
    findByTitleInScope ToLower savedStore 1 1 false "Saved dash in folder" none
        = some (dashboardModel 2 "dash" "Saved dash in folder" 1 false 1)
      ∧ (SaveDashboard (storageEnv ToLower permitAll none (some (Err.other "alerting down")))
          (requestFor (dashboardModel 0 "" "Saved dash in folder" 0 false 1) true)
          savedStore).err = some Err.ErrDashboardFailedToUpdateAlertData
      ∧ (SaveDashboard (storageEnv ToLower permitAll (some (Err.other "bad threshold")) none)
          (requestFor (dashboardModel 0 "" "Saved dash in folder" 0 false 1) false)
          savedStore).err = some Err.ErrDashboardContainsInvalidAlertData := by
  decide

/-- C14, amended.  In the storage modelled from the spec, for every case
folding `lower` of its title comparison, with the alert validation and the
alert synchronization succeeding: take a save request that passes the local
checks, carries neither id nor uid, whose folder is 0 or exists, and whose
title is that of an existing entity `c` of the same kind in the same
organization and folder.  Without the overwrite flag `SaveDashboard` fails
with `ErrDashboardWithSameNameInFolderExists` and the store is untouched.
With the overwrite flag, when no entity of the other kind has the title at this
folder scope, the request supplies no version or the current version of `c`,
the stored entities have non-zero ids and are each the entity that their id
and their uid find in their organization (ids and uids are unique), `c` is the
only entity of its kind with the title in the scope, the body of the request
agrees with its version field and the guardian permits the save of `c`, the
save is retargeted onto `c`: it succeeds, the entity returned has the id and
the uid of `c`, and the guardian was consulted with the id of `c`. -/
theorem overwrite_by_title (lower : String → String)
    (canSave : Int → Int → SignedInUser → Bool)
    (dto : SaveDashboardDTO) (store : List Dashboard) (c : Dashboard)
    (hl : localError IsValidShortUid (normalize dto.Dashboard) = none)
    (hid : dto.Dashboard.Id = 0) (huid : TrimSpace dto.Dashboard.Uid = "")
    (hf : folderResolver store dto.OrgId (normalize dto.Dashboard) = none)
    (hu : findByTitleInScope lower store dto.OrgId dto.Dashboard.FolderId dto.Dashboard.IsFolder
      (TrimSpace dto.Dashboard.Title) none = some c) :
    (dto.Overwrite = false →
        SaveDashboard (storageEnv lower canSave none none) dto store
          = ⟨none, some Err.ErrDashboardWithSameNameInFolderExists,
              [Call.ValidateDashboardAlerts dto.OrgId (normalize dto.Dashboard),
                Call.ValidateDashboardBeforeSave dto.OrgId (normalize dto.Dashboard)
                  dto.Overwrite], store⟩)
      ∧ (dto.Overwrite = true →
        findByTitleInScope lower store dto.OrgId dto.Dashboard.FolderId (!dto.Dashboard.IsFolder)
          (TrimSpace dto.Dashboard.Title) none = none →
        (dto.Dashboard.Version = 0 ∨ dto.Dashboard.Version = c.Version) →
        (∀ e ∈ store, e.Id ≠ 0 ∧ findById store e.OrgId e.Id = some e
          ∧ findByUid store e.OrgId e.Uid = some e) →
        findByTitleInScope lower store dto.OrgId dto.Dashboard.FolderId dto.Dashboard.IsFolder
          (TrimSpace dto.Dashboard.Title) (some c.Id) = none →
        dto.Dashboard.Data.GetInt "version" = dto.Dashboard.Version →
        canSave c.Id dto.OrgId dto.User = true →
        ∃ entity : Dashboard,
          (SaveDashboard (storageEnv lower canSave none none) dto store).val = some entity
            ∧ (SaveDashboard (storageEnv lower canSave none none) dto store).err = none
            ∧ entity.Id = c.Id
            ∧ entity.Uid = c.Uid
            ∧ Call.CanSave c.Id dto.OrgId dto.User
                ∈ (SaveDashboard (storageEnv lower canSave none none) dto store).calls) := by
  have hi : identityResolver store dto.OrgId (normalize dto.Dashboard)
      = Resolution.target none := by
    have h1 : (normalize dto.Dashboard).Id = 0 := hid
    have h2 : (normalize dto.Dashboard).Uid = "" := huid
    simp [identityResolver, h1, h2]
  have hcp := List.find?_some hu
  simp only [decide_eq_true_eq] at hcp
  obtain ⟨horg, -, hkind, -, -⟩ := hcp
  have hmem : c ∈ store := List.mem_of_find?_eq_some hu
  refine ⟨?_, ?_⟩
  · intro how
    have hr := resolve_same_name lower store dto.OrgId _ c hi hf hu
    rw [← how] at hr
    exact storage_save_rejected lower canSave none dto store _ hl hr
  · intro how hc hversion hstore hunique hsync hg
    obtain ⟨hne, hfind, hfuid⟩ := hstore c hmem
    rw [horg] at hfind hfuid
    have hv : ∀ d : Dashboard, d.Version = dto.Dashboard.Version →
        concurrencyValidator d true (some c) = none := by
      intro d hd
      rcases hversion with h0 | hcur
      · simp [concurrencyValidator, hd, h0]
      · simp [concurrencyValidator, hd, hcur]
    have hr := resolve_retarget lower store dto.OrgId _ c hi hf hu hc (hv _ rfl)
    rw [← how] at hr
    have hruid : resolvedUid store dto.OrgId (normalize dto.Dashboard) c = c.Uid := by
      simp [resolvedUid, hi]
    have hq2 : uidValidator store dto.OrgId (((normalize dto.Dashboard).SetId c.Id).SetUid
        (resolvedUid store dto.OrgId (normalize dto.Dashboard) c)) (some c) = none :=
      uidValidator_retargeted store dto.OrgId _ c c.Id hfuid (Or.inr (by simp [hi]))
    have hre := commit_model_resolve lower store dto c.Id
      (resolvedUid store dto.OrgId (normalize dto.Dashboard) c) dto.Overwrite hsync
    have hvo : concurrencyValidator (((normalize dto.Dashboard).SetId c.Id).SetUid
        (resolvedUid store dto.OrgId (normalize dto.Dashboard) c)) dto.Overwrite (some c)
        = none := by
      rw [how]
      exact hv _ rfl
    rw [resolve_update lower store dto.OrgId (((normalize dto.Dashboard).SetId c.Id).SetUid
      (resolvedUid store dto.OrgId (normalize dto.Dashboard) c)) c dto.Overwrite
      (identityResolver_of_id store dto.OrgId _ c rfl hne hfind) hf hkind hq2 hunique hc
      hvo] at hre
    obtain ⟨entity, h1, h2, h3, -, -, -, h7, -, h9⟩ :=
      storage_save_updates lower canSave dto store c hl hr hne hg hre
    refine ⟨entity, h1, h2, h3, ?_, h9⟩
    rw [h7, hruid]
    simp

/-- C14 amended, at concrete inputs, in the store of the integration test: a
new dashboard named like dashboard 2 in folder 1 is rejected without the
overwrite flag and overwrites dashboard 2 with it. -/
theorem overwrite_by_title_witness :
    SaveDashboard (storageEnv ToLower permitAll none none)
        (requestFor (dashboardModel 0 "" "Saved dash in folder" 0 false 1) false) savedStore
        = ⟨none, some Err.ErrDashboardWithSameNameInFolderExists,
            [Call.ValidateDashboardAlerts 1
              (normalize (dashboardModel 0 "" "Saved dash in folder" 0 false 1)),
            Call.ValidateDashboardBeforeSave 1
              (normalize (dashboardModel 0 "" "Saved dash in folder" 0 false 1)) false],
            savedStore⟩
      ∧ ∃ entity : Dashboard,
        (SaveDashboard (storageEnv ToLower permitAll none none)
            (requestFor (dashboardModel 0 "" "Saved dash in folder" 0 false 1) true)
            savedStore).val = some entity
          ∧ (SaveDashboard (storageEnv ToLower permitAll none none)
            (requestFor (dashboardModel 0 "" "Saved dash in folder" 0 false 1) true)
            savedStore).err = none
          ∧ entity.Id = 2
          ∧ entity.Uid = "dash"
          ∧ Call.CanSave 2 1 { UserId := 7, OrgRole := RoleType.ROLE_EDITOR }
              ∈ (SaveDashboard (storageEnv ToLower permitAll none none)
                (requestFor (dashboardModel 0 "" "Saved dash in folder" 0 false 1) true)
                savedStore).calls :=
  ⟨(overwrite_by_title ToLower permitAll
      (requestFor (dashboardModel 0 "" "Saved dash in folder" 0 false 1) false) savedStore
      (dashboardModel 2 "dash" "Saved dash in folder" 1 false 1)
      (by decide) rfl (by decide) (by decide) (by decide)).1 rfl,
    (overwrite_by_title ToLower permitAll
      (requestFor (dashboardModel 0 "" "Saved dash in folder" 0 false 1) true) savedStore
      (dashboardModel 2 "dash" "Saved dash in folder" 1 false 1)
      (by decide) rfl (by decide) (by decide) (by decide)).2 rfl (by decide) (Or.inl rfl)
      (by decide) (by decide) (by decide) rfl⟩

/-- C15, as stated, fails: in the store of the integration test, a request that
addresses the stored dashboard 2 by id as a folder, keeping its folder 1, fails
with `ErrDashboardFolderCannotHaveParent`; and a request that addresses the
stored folder 1 by uid as a dashboard, with a blank title, fails with
`ErrDashboardTitleEmpty`. -/
theorem type_immutability_counterexample :
    (identityResolver savedStore 1 (normalize (dashboardModel 2 "" "new folder title" 0 true 1))
          = Resolution.target (some (dashboardModel 2 "dash" "Saved dash in folder" 1 false 1))
        ∧ (SaveDashboard (storageEnv ToLower permitAll none none)
            (requestFor (dashboardModel 2 "" "new folder title" 0 true 1) true) savedStore).err
          = some Err.ErrDashboardFolderCannotHaveParent)
      ∧ (identityResolver savedStore 1 (normalize (dashboardModel 0 "fold" "  " 0 false 0))
          = Resolution.target (some (dashboardModel 1 "fold" "Saved folder" 1 true 0))
        ∧ (SaveDashboard (storageEnv ToLower permitAll none none)
            (requestFor (dashboardModel 0 "fold" "  " 0 false 0) true) savedStore).err
          = some Err.ErrDashboardTitleEmpty) := by
  decide

/-- C15, amended.  In the storage modelled from the spec, for every case
folding `lower` of its title comparison, with the alert validation succeeding:
a save request that passes the local checks, whose
folder is 0 or exists, and that addresses, by id or by uid, an existing entity
`t` of its organization whose folder flag differs from the request's, fails
with `ErrDashboardTypeMismatch`, whatever its overwrite flag is and whatever
the guardian would answer; neither the guardian nor the commit is invoked, the
store is untouched and still holds `t` with its folder flag. -/
theorem type_immutability (lower : String → String)
    (canSave : Int → Int → SignedInUser → Bool)
    (dto : SaveDashboardDTO) (store : List Dashboard) (t : Dashboard)
    (hl : localError IsValidShortUid (normalize dto.Dashboard) = none)
    (hi : identityResolver store dto.OrgId (normalize dto.Dashboard)
      = Resolution.target (some t))
    (hf : folderResolver store dto.OrgId (normalize dto.Dashboard) = none)
    (hk : t.IsFolder ≠ dto.Dashboard.IsFolder) :
    SaveDashboard (storageEnv lower canSave none none) dto store
        = ⟨none, some Err.ErrDashboardTypeMismatch,
            [Call.ValidateDashboardAlerts dto.OrgId (normalize dto.Dashboard),
              Call.ValidateDashboardBeforeSave dto.OrgId (normalize dto.Dashboard)
                dto.Overwrite], store⟩
      ∧ t ∈ (SaveDashboard (storageEnv lower canSave none none) dto store).world := by
  have hsave := storage_save_rejected lower canSave none dto store _ hl
    (resolve_type_mismatch lower store dto.OrgId _ t dto.Overwrite hi hf hk)
  refine ⟨hsave, ?_⟩
  rw [hsave]
  exact (identityResolver_mem store dto.OrgId _ t hi).1

/-- C15 amended, at a concrete input, in the store of the integration test: the
stored folder 1, addressed by uid as a dashboard with the overwrite flag. -/
theorem type_immutability_witness :
    SaveDashboard (storageEnv ToLower permitAll none none)
        (requestFor (dashboardModel 0 "fold" "new title" 0 false 0) true) savedStore
        = ⟨none, some Err.ErrDashboardTypeMismatch,
            [Call.ValidateDashboardAlerts 1
              (normalize (dashboardModel 0 "fold" "new title" 0 false 0)),
            Call.ValidateDashboardBeforeSave 1
              (normalize (dashboardModel 0 "fold" "new title" 0 false 0)) true], savedStore⟩
      ∧ dashboardModel 1 "fold" "Saved folder" 1 true 0
        ∈ (SaveDashboard (storageEnv ToLower permitAll none none)
            (requestFor (dashboardModel 0 "fold" "new title" 0 false 0) true) savedStore).world :=
  type_immutability ToLower permitAll
    (requestFor (dashboardModel 0 "fold" "new title" 0 false 0) true) savedStore
    (dashboardModel 1 "fold" "Saved folder" 1 true 0) (by decide) (by decide) (by decide)
    (by decide)

end Dashboards
